import Mathlib

/-!
Channel genesis validation (`modules/core/04-channel/types/genesis.go`)

A shallow embedding of the genesis-state validator of the channel submodule.

* Go's `error` result is `Option GoError`: `none` is the `nil` error (success).
* Go's `[]byte` is `Option (List Nat)`: `none` is the `nil` slice, `some []` a
  non-nil slice of length zero.  `len` of both is `0`.
* `uint64` values are natural numbers; the validator only compares them.
* The functions the validator calls but which live in other packages
  (`ParseChannelSequence`, `IdentifiedChannel.ValidateBasic`,
  `host.PortIdentifierValidator`, `host.ChannelIdentifierValidator`) are the
  fields of `Collab`, and `DefaultParams()` is a parameter.
-/

namespace Genesis

/-- Registered error kinds that `genesis.go` wraps its failures under. -/
inductive ErrKind where
  | ErrInvalidSequence
  | ErrInvalidAcknowledgement
  | ErrInvalidCommitment
  deriving DecidableEq, Repr

/-- PacketState record: acknowledgement, receipt or commitment stored under a channel. -/
structure PacketState where
  PortId : String
  ChannelId : String
  Sequence : Nat
  Data : Option (List Nat)
  deriving DecidableEq, Repr

/-- PacketSequence record: a send, receive or ack sequence counter of a channel. -/
structure PacketSequence where
  PortId : String
  ChannelId : String
  Sequence : Nat
  deriving DecidableEq, Repr

/-- IdentifiedChannel: the validator reads `ChannelId`; the remaining fields are
declared outside this file and are kept as one value of type `Cfg`. -/
structure IdentifiedChannel (Cfg : Type) where
  ChannelId : String
  Config : Cfg
  deriving DecidableEq, Repr

/-- GenesisState of the channel submodule. -/
structure GenesisState (Cfg P : Type) where
  Channels : List (IdentifiedChannel Cfg)
  Acknowledgements : List PacketState
  Receipts : List PacketState
  Commitments : List PacketState
  SendSequences : List PacketSequence
  RecvSequences : List PacketSequence
  AckSequences : List PacketSequence
  NextChannelSequence : Nat
  Params : P
  deriving DecidableEq, Repr

/-- A value passed to a format verb (`%v`, `%d`) of an error message. -/
inductive Arg (Cfg : Type) where
  | channel (c : IdentifiedChannel Cfg)
  | packetState (p : PacketState)
  | packetSequence (s : PacketSequence)
  | num (n : Nat)
  deriving DecidableEq, Repr

/-- Go error values built by `genesis.go`.
* `ext e`: an error returned by a function of another package;
* `new msg`: `errors.New(msg)`;
* `errorf fmt args err`: `fmt.Errorf(fmt, args..., err)` whose last verb is `%w`;
* `wrapf kind fmt args txt`: `errorsmod.Wrapf(kind, fmt, args...)`, where `txt`
  is the error whose `.Error()` text fills a trailing `%s`, if there is one. -/
inductive GoError (Cfg E : Type) where
  | ext (e : E)
  | new (msg : String)
  | errorf (fmt : String) (args : List (Arg Cfg)) (err : GoError Cfg E)
  | wrapf (kind : ErrKind) (fmt : String) (args : List (Arg Cfg)) (txt : Option (GoError Cfg E))
  deriving Repr

/-- The functions of other packages that the validator calls. -/
structure Collab (Cfg E : Type) where
  ParseChannelSequence : String → Except E Nat
  ValidateBasic : IdentifiedChannel Cfg → Option E
  PortIdentifierValidator : String → Option E
  ChannelIdentifierValidator : String → Option E

section Code

variable {Cfg P E : Type}

/-- Go `len` of a byte slice: the nil slice has length 0. -/
def len (d : Option (List Nat)) : Nat :=
  match d with
  | none => 0
  | some bs => bs.length

/-- NewPacketState (genesis.go:14). -/
def NewPacketState (portID channelID : String) (seq : Nat) (data : Option (List Nat)) :
    PacketState :=
  { PortId := portID, ChannelId := channelID, Sequence := seq, Data := data }

/-- NewPacketSequence (genesis.go:33). -/
def NewPacketSequence (portID channelID : String) (seq : Nat) : PacketSequence :=
  { PortId := portID, ChannelId := channelID, Sequence := seq }

/-- NewGenesisState (genesis.go:48). -/
def NewGenesisState (channels : List (IdentifiedChannel Cfg))
    (acks receipts commitments : List PacketState)
    (sendSeqs recvSeqs ackSeqs : List PacketSequence) (nextChannelSequence : Nat)
    (params : P) : GenesisState Cfg P :=
  { Channels := channels, Acknowledgements := acks, Receipts := receipts,
    Commitments := commitments, SendSequences := sendSeqs, RecvSequences := recvSeqs,
    AckSequences := ackSeqs, NextChannelSequence := nextChannelSequence, Params := params }

/-- DefaultGenesisState (genesis.go:67); `defaultParams` is the value of `DefaultParams()`. -/
def DefaultGenesisState (Cfg : Type) (defaultParams : P) : GenesisState Cfg P :=
  { Channels := [], Acknowledgements := [], Receipts := [], Commitments := [],
    SendSequences := [], RecvSequences := [], AckSequences := [],
    NextChannelSequence := 0, Params := defaultParams }

/-- validateGenFields (genesis.go:152). -/
def validateGenFields (c : Collab Cfg E) (portID channelID : String) (sequence : Nat) :
    Option (GoError Cfg E) :=
  match c.PortIdentifierValidator portID with
  | some err => some (.errorf "invalid port Id: %w" [] (.ext err))
  | none =>
    match c.ChannelIdentifierValidator channelID with
    | some err => some (.errorf "invalid channel Id: %w" [] (.ext err))
    | none =>
      if sequence = 0 then some (.new "sequence cannot be 0") else none

/-- PacketState.Validate (genesis.go:25). -/
def PacketState.Validate (c : Collab Cfg E) (pa : PacketState) : Option (GoError Cfg E) :=
  match pa.Data with
  | none => some (.new "data bytes cannot be nil")
  | some _ => validateGenFields c pa.PortId pa.ChannelId pa.Sequence

/-- PacketSequence.Validate (genesis.go:43). -/
def PacketSequence.Validate (c : Collab Cfg E) (ps : PacketSequence) : Option (GoError Cfg E) :=
  validateGenFields c ps.PortId ps.ChannelId ps.Sequence

/-- The loop over `gs.Channels` (genesis.go:88-101), from index `i` with the running
`maxSequence`: the error it returns, or the final `maxSequence`. -/
def channelLoop (c : Collab Cfg E) :
    List (IdentifiedChannel Cfg) → Nat → Nat → Except (GoError Cfg E) Nat
  | [], _, maxSequence => .ok maxSequence
  | channel :: rest, i, maxSequence =>
    match c.ParseChannelSequence channel.ChannelId with
    | .error err => .error (.ext err)
    | .ok sequence =>
      let maxSequence := if sequence > maxSequence then sequence else maxSequence
      match c.ValidateBasic channel with
      | some err =>
        .error (.errorf "invalid channel %v channel index %d: %w" [.channel channel, .num i]
          (.ext err))
      | none => channelLoop c rest (i + 1) maxSequence

/-- The loop over `gs.Acknowledgements` (genesis.go:107-114), from index `i`. -/
def ackLoop (c : Collab Cfg E) : List PacketState → Nat → Option (GoError Cfg E)
  | [], _ => none
  | ack :: rest, i =>
    match ack.Validate c with
    | some err =>
      some (.wrapf .ErrInvalidAcknowledgement "%v ack index %d: %s"
        [.packetState ack, .num i] (some err))
    | none =>
      if len ack.Data = 0 then
        some (.wrapf .ErrInvalidAcknowledgement "%v ack index %d: data bytes cannot be empty"
          [.packetState ack, .num i] none)
      else ackLoop c rest (i + 1)

/-- The loop over `gs.Receipts` (genesis.go:116-120), from index `i`. -/
def receiptLoop (c : Collab Cfg E) : List PacketState → Nat → Option (GoError Cfg E)
  | [], _ => none
  | receipt :: rest, i =>
    match receipt.Validate c with
    | some err =>
      some (.wrapf .ErrInvalidAcknowledgement "%v ack index %d: %s"
        [.packetState receipt, .num i] (some err))
    | none => receiptLoop c rest (i + 1)

/-- The loop over `gs.Commitments` (genesis.go:122-129), from index `i`. -/
def commitmentLoop (c : Collab Cfg E) : List PacketState → Nat → Option (GoError Cfg E)
  | [], _ => none
  | commitment :: rest, i =>
    match commitment.Validate c with
    | some err =>
      some (.wrapf .ErrInvalidCommitment "%v index %d: %s"
        [.packetState commitment, .num i] (some err))
    | none =>
      if len commitment.Data = 0 then
        some (.wrapf .ErrInvalidAcknowledgement "%v ack index %d: data bytes cannot be empty"
          [.packetState commitment, .num i] none)
      else commitmentLoop c rest (i + 1)

/-- The loop over `gs.SendSequences` (genesis.go:131-135), from index `i`. -/
def sendLoop (c : Collab Cfg E) : List PacketSequence → Nat → Option (GoError Cfg E)
  | [], _ => none
  | ss :: rest, i =>
    match ss.Validate c with
    | some err =>
      some (.wrapf .ErrInvalidSequence "invalid send sequence %v index %d: %s"
        [.packetSequence ss, .num i] (some err))
    | none => sendLoop c rest (i + 1)

/-- The loop over `gs.RecvSequences` (genesis.go:137-141), from index `i`. -/
def recvLoop (c : Collab Cfg E) : List PacketSequence → Nat → Option (GoError Cfg E)
  | [], _ => none
  | rs :: rest, i =>
    match rs.Validate c with
    | some err =>
      some (.errorf "invalid receive sequence %v index %d: %w"
        [.packetSequence rs, .num i] err)
    | none => recvLoop c rest (i + 1)

/-- The loop over `gs.AckSequences` (genesis.go:143-147), from index `i`. -/
def ackSeqLoop (c : Collab Cfg E) : List PacketSequence → Nat → Option (GoError Cfg E)
  | [], _ => none
  | as :: rest, i =>
    match as.Validate c with
    | some err =>
      some (.wrapf .ErrInvalidAcknowledgement "sequence %v index %d: %s"
        [.packetSequence as, .num i] (some err))
    | none => ackSeqLoop c rest (i + 1)

/-- The part of `GenesisState.Validate` after the sequence comparison
(genesis.go:107-149): the six record loops in source order. -/
def recordLoops (c : Collab Cfg E) (gs : GenesisState Cfg P) : Option (GoError Cfg E) :=
  match ackLoop c gs.Acknowledgements 0 with
  | some err => some err
  | none =>
    match receiptLoop c gs.Receipts 0 with
    | some err => some err
    | none =>
      match commitmentLoop c gs.Commitments 0 with
      | some err => some err
      | none =>
        match sendLoop c gs.SendSequences 0 with
        | some err => some err
        | none =>
          match recvLoop c gs.RecvSequences 0 with
          | some err => some err
          | none => ackSeqLoop c gs.AckSequences 0

/-- The error of the sequence comparison (genesis.go:104). -/
def orderingError (next maxSequence : Nat) : GoError Cfg E :=
  .wrapf .ErrInvalidSequence
    "next channel sequence %d must be greater than maximum sequence used in channel identifier %d"
    [.num next, .num maxSequence] none

/-- GenesisState.Validate (genesis.go:83). -/
def GenesisState.Validate (c : Collab Cfg E) (gs : GenesisState Cfg P) :
    Option (GoError Cfg E) :=
  match channelLoop c gs.Channels 0 0 with
  | .error err => some err
  | .ok maxSequence =>
    if maxSequence ≠ 0 ∧ maxSequence ≥ gs.NextChannelSequence then
      some (orderingError gs.NextChannelSequence maxSequence)
    else recordLoops c gs

end Code

/-! ## Statement-side definitions -/

section SpecSide

variable {Cfg P E : Type}

/-- The sequence number parsed from a channel's identifier (0 when it does not parse). -/
def parsedSequence (c : Collab Cfg E) (ch : IdentifiedChannel Cfg) : Nat :=
  match c.ParseChannelSequence ch.ChannelId with
  | .ok s => s
  | .error _ => 0

/-- The maximum of the parsed sequence numbers of a list of channels, 0 for no channel. -/
def maxParsedSequence (c : Collab Cfg E) (chans : List (IdentifiedChannel Cfg)) : Nat :=
  (chans.map (parsedSequence c)).foldr max 0

/-- A channel's identifier parses and the channel passes `ValidateBasic`. -/
def channelOk (c : Collab Cfg E) (ch : IdentifiedChannel Cfg) : Prop :=
  (∃ s, c.ParseChannelSequence ch.ChannelId = .ok s) ∧ c.ValidateBasic ch = none

/-- An acknowledgement or commitment record is acceptable: it passes
`PacketState.Validate` and its data has non-zero length. -/
def payloadOk (c : Collab Cfg E) (r : PacketState) : Prop :=
  r.Validate c = none ∧ len r.Data ≠ 0

/-- The first error in a list of check results, read in list order. -/
def firstError {α : Type} : List (Option α) → Option α
  | [] => none
  | some e :: _ => some e
  | none :: rest => firstError rest

/-- Check 1a on a channel: its identifier parses; the parser's error is passed on as is. -/
def parseCheck (c : Collab Cfg E) (ch : IdentifiedChannel Cfg) : Option (GoError Cfg E) :=
  match c.ParseChannelSequence ch.ChannelId with
  | .error err => some (.ext err)
  | .ok _ => none

/-- Check 1c on the channel at index `i`: the structural validation. -/
def basicCheck (c : Collab Cfg E) (i : Nat) (ch : IdentifiedChannel Cfg) :
    Option (GoError Cfg E) :=
  match c.ValidateBasic ch with
  | some err =>
    some (.errorf "invalid channel %v channel index %d: %w" [.channel ch, .num i] (.ext err))
  | none => none

/-- The comparison of the maximum parsed sequence with the next channel sequence. -/
def orderingCheck (c : Collab Cfg E) (gs : GenesisState Cfg P) : Option (GoError Cfg E) :=
  if maxParsedSequence c gs.Channels ≠ 0 ∧
      maxParsedSequence c gs.Channels ≥ gs.NextChannelSequence then
    some (orderingError gs.NextChannelSequence (maxParsedSequence c gs.Channels))
  else none

/-- An error for a record whose data has length zero, built by `mk`. -/
def emptyCheck (r : PacketState) (mk : GoError Cfg E) : Option (GoError Cfg E) :=
  if len r.Data = 0 then some mk else none

/-- The checks of `GenesisState.Validate` in the order of section 4.1: the channels in
index order (identifier parse, then structural validation), the sequence comparison, then
acknowledgements, receipts, commitments, send, receive and ack sequences in index order. -/
def orderedChecks (c : Collab Cfg E) (gs : GenesisState Cfg P) : List (Option (GoError Cfg E)) :=
  gs.Channels.enum.flatMap (fun x => [parseCheck c x.2, basicCheck c x.1 x.2])
  ++ [orderingCheck c gs]
  ++ gs.Acknowledgements.enum.flatMap (fun x =>
      [(x.2.Validate c).map (fun err => .wrapf .ErrInvalidAcknowledgement "%v ack index %d: %s"
          [.packetState x.2, .num x.1] (some err)),
       emptyCheck x.2 (.wrapf .ErrInvalidAcknowledgement
          "%v ack index %d: data bytes cannot be empty" [.packetState x.2, .num x.1] none)])
  ++ gs.Receipts.enum.map (fun x =>
      (x.2.Validate c).map (fun err => .wrapf .ErrInvalidAcknowledgement "%v ack index %d: %s"
          [.packetState x.2, .num x.1] (some err)))
  ++ gs.Commitments.enum.flatMap (fun x =>
      [(x.2.Validate c).map (fun err => .wrapf .ErrInvalidCommitment "%v index %d: %s"
          [.packetState x.2, .num x.1] (some err)),
       emptyCheck x.2 (.wrapf .ErrInvalidAcknowledgement
          "%v ack index %d: data bytes cannot be empty" [.packetState x.2, .num x.1] none)])
  ++ gs.SendSequences.enum.map (fun x =>
      (x.2.Validate c).map (fun err => .wrapf .ErrInvalidSequence
          "invalid send sequence %v index %d: %s" [.packetSequence x.2, .num x.1] (some err)))
  ++ gs.RecvSequences.enum.map (fun x =>
      (x.2.Validate c).map (fun err => .errorf "invalid receive sequence %v index %d: %w"
          [.packetSequence x.2, .num x.1] err))
  ++ gs.AckSequences.enum.map (fun x =>
      (x.2.Validate c).map (fun err => .wrapf .ErrInvalidAcknowledgement
          "sequence %v index %d: %s" [.packetSequence x.2, .num x.1] (some err)))

/-- The registered kind that `genesis.go` classifies an error under, if any: the kind of
an `errorsmod.Wrapf`, found through `%w` wrapping.  `errors.New` values carry none, and
what an error of another package carries is not decided in this file. -/
def GoError.kind? : GoError Cfg E → Option ErrKind
  | .ext _ => none
  | .new _ => none
  | .errorf _ _ err => err.kind?
  | .wrapf kind _ _ _ => some kind

/-- The channel pass and the sequence comparison both pass. -/
def channelStageOk (c : Collab Cfg E) (gs : GenesisState Cfg P) : Prop :=
  (∀ ch ∈ gs.Channels, channelOk c ch) ∧
  (maxParsedSequence c gs.Channels = 0 ∨
    maxParsedSequence c gs.Channels < gs.NextChannelSequence)

/-- Whether an error carries a registered error kind, given which errors of the other
packages carry one (`extHasKind`): an `errorsmod.Wrapf` does, an `errors.New` does not,
and a `fmt.Errorf` with `%w` carries what the error it wraps carries. -/
def GoError.hasKind (extHasKind : E → Bool) : GoError Cfg E → Bool
  | .ext e => extHasKind e
  | .new _ => false
  | .errorf _ _ err => err.hasKind extHasKind
  | .wrapf _ _ _ _ => true

/-- The error `e` is the report of the check of `gs` that fails first, every check before
it passing.  The disjuncts are, in order: identifier parse, channel structural
validation, sequence comparison, acknowledgements, receipts, commitments, send, receive
and ack sequences.  For a record of a collection, `pre` are the records before the
offending record `r`, so that `pre.length` is the index of `r`. -/
def errorContext (c : Collab Cfg E) (gs : GenesisState Cfg P) (e : GoError Cfg E) : Prop :=
  (∃ (pre : List (IdentifiedChannel Cfg)) (ch : IdentifiedChannel Cfg)
      (post : List (IdentifiedChannel Cfg)) (x : E),
    gs.Channels = pre ++ ch :: post ∧ (∀ y ∈ pre, channelOk c y) ∧
    c.ParseChannelSequence ch.ChannelId = .error x ∧ e = .ext x) ∨
  (∃ (pre : List (IdentifiedChannel Cfg)) (ch : IdentifiedChannel Cfg)
      (post : List (IdentifiedChannel Cfg)) (x : E),
    gs.Channels = pre ++ ch :: post ∧ (∀ y ∈ pre, channelOk c y) ∧
    (∃ s, c.ParseChannelSequence ch.ChannelId = .ok s) ∧ c.ValidateBasic ch = some x ∧
    e = .errorf "invalid channel %v channel index %d: %w"
      [.channel ch, .num pre.length] (.ext x)) ∨
  ((∀ ch ∈ gs.Channels, channelOk c ch) ∧ maxParsedSequence c gs.Channels ≠ 0 ∧
    maxParsedSequence c gs.Channels ≥ gs.NextChannelSequence ∧
    e = .wrapf .ErrInvalidSequence
      "next channel sequence %d must be greater than maximum sequence used in channel identifier %d"
      [.num gs.NextChannelSequence, .num (maxParsedSequence c gs.Channels)] none) ∨
  (channelStageOk c gs ∧
    ∃ (pre : List PacketState) (r : PacketState) (post : List PacketState),
      gs.Acknowledgements = pre ++ r :: post ∧ (∀ y ∈ pre, payloadOk c y) ∧
      ((∃ err, r.Validate c = some err ∧
          e = .wrapf .ErrInvalidAcknowledgement "%v ack index %d: %s"
            [.packetState r, .num pre.length] (some err)) ∨
        (r.Validate c = none ∧ len r.Data = 0 ∧
          e = .wrapf .ErrInvalidAcknowledgement "%v ack index %d: data bytes cannot be empty"
            [.packetState r, .num pre.length] none))) ∨
  (channelStageOk c gs ∧ (∀ y ∈ gs.Acknowledgements, payloadOk c y) ∧
    ∃ (pre : List PacketState) (r : PacketState) (post : List PacketState)
        (err : GoError Cfg E),
      gs.Receipts = pre ++ r :: post ∧ (∀ y ∈ pre, y.Validate c = none) ∧
      r.Validate c = some err ∧
      e = .wrapf .ErrInvalidAcknowledgement "%v ack index %d: %s"
        [.packetState r, .num pre.length] (some err)) ∨
  (channelStageOk c gs ∧ (∀ y ∈ gs.Acknowledgements, payloadOk c y) ∧
    (∀ y ∈ gs.Receipts, y.Validate c = none) ∧
    ∃ (pre : List PacketState) (r : PacketState) (post : List PacketState),
      gs.Commitments = pre ++ r :: post ∧ (∀ y ∈ pre, payloadOk c y) ∧
      ((∃ err, r.Validate c = some err ∧
          e = .wrapf .ErrInvalidCommitment "%v index %d: %s"
            [.packetState r, .num pre.length] (some err)) ∨
        (r.Validate c = none ∧ len r.Data = 0 ∧
          e = .wrapf .ErrInvalidAcknowledgement "%v ack index %d: data bytes cannot be empty"
            [.packetState r, .num pre.length] none))) ∨
  (channelStageOk c gs ∧ (∀ y ∈ gs.Acknowledgements, payloadOk c y) ∧
    (∀ y ∈ gs.Receipts, y.Validate c = none) ∧ (∀ y ∈ gs.Commitments, payloadOk c y) ∧
    ∃ (pre : List PacketSequence) (r : PacketSequence) (post : List PacketSequence)
        (err : GoError Cfg E),
      gs.SendSequences = pre ++ r :: post ∧ (∀ y ∈ pre, y.Validate c = none) ∧
      r.Validate c = some err ∧
      e = .wrapf .ErrInvalidSequence "invalid send sequence %v index %d: %s"
        [.packetSequence r, .num pre.length] (some err)) ∨
  (channelStageOk c gs ∧ (∀ y ∈ gs.Acknowledgements, payloadOk c y) ∧
    (∀ y ∈ gs.Receipts, y.Validate c = none) ∧ (∀ y ∈ gs.Commitments, payloadOk c y) ∧
    (∀ y ∈ gs.SendSequences, y.Validate c = none) ∧
    ∃ (pre : List PacketSequence) (r : PacketSequence) (post : List PacketSequence)
        (err : GoError Cfg E),
      gs.RecvSequences = pre ++ r :: post ∧ (∀ y ∈ pre, y.Validate c = none) ∧
      r.Validate c = some err ∧
      e = .errorf "invalid receive sequence %v index %d: %w"
        [.packetSequence r, .num pre.length] err) ∨
  (channelStageOk c gs ∧ (∀ y ∈ gs.Acknowledgements, payloadOk c y) ∧
    (∀ y ∈ gs.Receipts, y.Validate c = none) ∧ (∀ y ∈ gs.Commitments, payloadOk c y) ∧
    (∀ y ∈ gs.SendSequences, y.Validate c = none) ∧
    (∀ y ∈ gs.RecvSequences, y.Validate c = none) ∧
    ∃ (pre : List PacketSequence) (r : PacketSequence) (post : List PacketSequence)
        (err : GoError Cfg E),
      gs.AckSequences = pre ++ r :: post ∧ (∀ y ∈ pre, y.Validate c = none) ∧
      r.Validate c = some err ∧
      e = .wrapf .ErrInvalidAcknowledgement "sequence %v index %d: %s"
        [.packetSequence r, .num pre.length] (some err))

end SpecSide

/-! ## A concrete instance of the collaborators, used to evaluate the code -/

section Sample

/-- Decimal value of a list of digit characters, `none` if one is not a digit. -/
def parseDigits : List Char → Nat → Option Nat
  | [], acc => some acc
  | ch :: rest, acc =>
    if ch.isDigit then parseDigits rest (acc * 10 + (ch.toNat - 48)) else none

/-- Modelled from the spec: the channel-identifier sequence parser (section 6), which reads
the trailing number of an identifier `channel-N`. -/
def sampleParse (s : String) : Except String Nat :=
  match s.data with
  | 'c' :: 'h' :: 'a' :: 'n' :: 'n' :: 'e' :: 'l' :: '-' :: d :: ds =>
    match parseDigits (d :: ds) 0 with
    | some n => .ok n
    | none => .error "invalid channel identifier"
  | _ => .error "invalid channel identifier"

/-- Modelled from the spec: an identifier syntax validator (section 6); this instance
rejects the empty identifier and accepts the others. -/
def sampleIdentifierValidator (s : String) : Option String :=
  if s.data = [] then some "identifier cannot be blank" else none

/-- Modelled from the spec: the collaborators of section 6.  A channel's configuration is
a Boolean saying whether the structural validation accepts it. -/
def sampleCollab : Collab Bool String where
  ParseChannelSequence := sampleParse
  ValidateBasic := fun ch => if ch.Config then none else some "invalid channel"
  PortIdentifierValidator := sampleIdentifierValidator
  ChannelIdentifierValidator := sampleIdentifierValidator

/-- A structurally valid channel `channel-N` given its identifier. -/
def sampleChannel (id : String) : IdentifiedChannel Bool :=
  { ChannelId := id, Config := true }

/-- A state of the sample instance without channels: one acknowledgement with a valid
payload, one send sequence record, and the given next channel sequence. -/
def sampleNoChannels (next : Nat) : GenesisState Bool Unit :=
  NewGenesisState [] [NewPacketState "transfer" "channel-0" 1 (some [1])] [] []
    [NewPacketSequence "transfer" "channel-0" 1] [] [] next ()

/-- A state of the sample instance with failing records in several collections: the
acknowledgements at indices 1 (zero sequence) and 2 (empty data), the only receipt (nil
data) and the only send sequence record (empty port id). -/
def sampleManyFailures : GenesisState Bool Unit :=
  NewGenesisState [sampleChannel "channel-0"]
    [NewPacketState "transfer" "channel-0" 1 (some [1]),
     NewPacketState "transfer" "channel-0" 0 (some [1]),
     NewPacketState "transfer" "channel-0" 3 (some [])]
    [NewPacketState "transfer" "channel-0" 1 none] []
    [NewPacketSequence "" "channel-0" 1] [] [] 1 ()

/-- The default genesis state of the sample instance (parameters are trivial). -/
def sampleDefault : GenesisState Bool Unit := DefaultGenesisState Bool ()

/-- A state of the sample instance with structurally valid channels of the given
identifiers, the given next channel sequence and no other record. -/
def sampleState (ids : List String) (next : Nat) : GenesisState Bool Unit :=
  NewGenesisState (ids.map sampleChannel) [] [] [] [] [] [] next ()

/-- A state of the sample instance whose parameters are a Boolean: one valid channel,
one acknowledgement at sequence `seq` and next channel sequence 4. -/
def sampleWithParams (seq : Nat) (params : Bool) : GenesisState Bool Bool :=
  NewGenesisState [sampleChannel "channel-3"]
    [NewPacketState "transfer" "channel-3" seq (some [1])] [] [] [] [] [] 4 params

/-- A state of the sample instance with one record in each of the three sequence
collections, at the given sequence numbers, and nothing else. -/
def sampleSeqs (send recv ack : Nat) : GenesisState Bool Unit :=
  NewGenesisState [] [] [] []
    [NewPacketSequence "transfer" "channel-0" send]
    [NewPacketSequence "transfer" "channel-0" recv]
    [NewPacketSequence "transfer" "channel-0" ack] 0 ()

/-- A state of the sample instance with the given receipts and commitments only. -/
def sampleRecords (receipts commitments : List PacketState) : GenesisState Bool Unit :=
  NewGenesisState [] [] receipts commitments [] [] [] 0 ()

end Sample

/-! ## Lemmas on the loops -/

section Lemmas

variable {Cfg P E : Type}

theorem maxParsedSequence_nil (c : Collab Cfg E) : maxParsedSequence c [] = 0 := rfl

theorem maxParsedSequence_cons (c : Collab Cfg E) (ch : IdentifiedChannel Cfg)
    (rest : List (IdentifiedChannel Cfg)) :
    maxParsedSequence c (ch :: rest) = max (parsedSequence c ch) (maxParsedSequence c rest) := rfl

theorem parsedSequence_le_max (c : Collab Cfg E) (chans : List (IdentifiedChannel Cfg))
    (ch : IdentifiedChannel Cfg) (h : ch ∈ chans) :
    parsedSequence c ch ≤ maxParsedSequence c chans := by
  induction chans with
  | nil => cases h
  | cons x rest ih =>
    rw [maxParsedSequence_cons]
    rcases List.mem_cons.mp h with h1 | h1
    · subst h1; exact le_max_left _ _
    · exact le_trans (ih h1) (le_max_right _ _)

theorem maxParsedSequence_perm (c : Collab Cfg E) {l1 l2 : List (IdentifiedChannel Cfg)}
    (h : l1.Perm l2) : maxParsedSequence c l1 = maxParsedSequence c l2 := by
  induction h with
  | nil => rfl
  | cons x _ ih => simp only [maxParsedSequence_cons, ih]
  | swap x y l => simp only [maxParsedSequence_cons]; omega
  | trans _ _ ih1 ih2 => exact ih1.trans ih2

/-- When every channel from the current one on is acceptable, the channel loop ends
with the maximum of the running value and the parsed sequences. -/
theorem channelLoop_ok (c : Collab Cfg E) (chans : List (IdentifiedChannel Cfg))
    (h : ∀ ch ∈ chans, channelOk c ch) (i m : Nat) :
    channelLoop c chans i m = .ok (max m (maxParsedSequence c chans)) := by
  induction chans generalizing i m with
  | nil => simp [channelLoop, maxParsedSequence]
  | cons x rest ih =>
    obtain ⟨⟨s, hs⟩, hv⟩ := h x (List.mem_cons_self _ _)
    have hrest : ∀ ch ∈ rest, channelOk c ch := fun ch hch => h ch (List.mem_cons_of_mem _ hch)
    have hp : parsedSequence c x = s := by simp [parsedSequence, hs]
    simp only [channelLoop, hs, hv, ih hrest, maxParsedSequence_cons, hp]
    congr 1
    split <;> omega

/-- The channel loop ends without an error exactly when every channel is acceptable. -/
theorem channelLoop_ok_iff (c : Collab Cfg E) (chans : List (IdentifiedChannel Cfg))
    (i m : Nat) :
    (∃ r, channelLoop c chans i m = .ok r) ↔ ∀ ch ∈ chans, channelOk c ch := by
  constructor
  · induction chans generalizing i m with
    | nil => intro _ ch hch; cases hch
    | cons x rest ih =>
      rintro ⟨r, hr⟩
      simp only [channelLoop] at hr
      cases hs : c.ParseChannelSequence x.ChannelId with
      | error e => simp [hs] at hr
      | ok s =>
        cases hv : c.ValidateBasic x with
        | some e => simp [hs, hv] at hr
        | none =>
          simp only [hs, hv] at hr
          intro ch hch
          rcases List.mem_cons.mp hch with h1 | h1
          · subst h1; exact ⟨⟨s, hs⟩, hv⟩
          · exact ih _ _ ⟨r, hr⟩ ch h1
  · intro h
    exact ⟨_, channelLoop_ok c chans h i m⟩

theorem ackLoop_none_iff (c : Collab Cfg E) (l : List PacketState) (i : Nat) :
    ackLoop c l i = none ↔ ∀ r ∈ l, payloadOk c r := by
  induction l generalizing i with
  | nil => simp [ackLoop]
  | cons x rest ih =>
    simp only [ackLoop, List.forall_mem_cons, payloadOk]
    cases hx : x.Validate c with
    | some e => simp
    | none =>
      by_cases hl : len x.Data = 0
      · simp [hl]
      · simp only [hl, if_false, ih, payloadOk]; simp [hl]

theorem receiptLoop_none_iff (c : Collab Cfg E) (l : List PacketState) (i : Nat) :
    receiptLoop c l i = none ↔ ∀ r ∈ l, r.Validate c = none := by
  induction l generalizing i with
  | nil => simp [receiptLoop]
  | cons x rest ih =>
    simp only [receiptLoop, List.forall_mem_cons]
    cases hx : x.Validate c with
    | some e => simp
    | none => simp only [ih]; simp

theorem commitmentLoop_none_iff (c : Collab Cfg E) (l : List PacketState) (i : Nat) :
    commitmentLoop c l i = none ↔ ∀ r ∈ l, payloadOk c r := by
  induction l generalizing i with
  | nil => simp [commitmentLoop]
  | cons x rest ih =>
    simp only [commitmentLoop, List.forall_mem_cons, payloadOk]
    cases hx : x.Validate c with
    | some e => simp
    | none =>
      by_cases hl : len x.Data = 0
      · simp [hl]
      · simp only [hl, if_false, ih, payloadOk]; simp [hl]

theorem sendLoop_none_iff (c : Collab Cfg E) (l : List PacketSequence) (i : Nat) :
    sendLoop c l i = none ↔ ∀ r ∈ l, r.Validate c = none := by
  induction l generalizing i with
  | nil => simp [sendLoop]
  | cons x rest ih =>
    simp only [sendLoop, List.forall_mem_cons]
    cases hx : x.Validate c with
    | some e => simp
    | none => simp only [ih]; simp

theorem recvLoop_none_iff (c : Collab Cfg E) (l : List PacketSequence) (i : Nat) :
    recvLoop c l i = none ↔ ∀ r ∈ l, r.Validate c = none := by
  induction l generalizing i with
  | nil => simp [recvLoop]
  | cons x rest ih =>
    simp only [recvLoop, List.forall_mem_cons]
    cases hx : x.Validate c with
    | some e => simp
    | none => simp only [ih]; simp

theorem ackSeqLoop_none_iff (c : Collab Cfg E) (l : List PacketSequence) (i : Nat) :
    ackSeqLoop c l i = none ↔ ∀ r ∈ l, r.Validate c = none := by
  induction l generalizing i with
  | nil => simp [ackSeqLoop]
  | cons x rest ih =>
    simp only [ackSeqLoop, List.forall_mem_cons]
    cases hx : x.Validate c with
    | some e => simp
    | none => simp only [ih]; simp

/-- The six record loops all pass exactly when every record is acceptable. -/
theorem recordLoops_none_iff (c : Collab Cfg E) (gs : GenesisState Cfg P) :
    recordLoops c gs = none ↔
      (∀ r ∈ gs.Acknowledgements, payloadOk c r) ∧
      (∀ r ∈ gs.Receipts, r.Validate c = none) ∧
      (∀ r ∈ gs.Commitments, payloadOk c r) ∧
      (∀ r ∈ gs.SendSequences, r.Validate c = none) ∧
      (∀ r ∈ gs.RecvSequences, r.Validate c = none) ∧
      (∀ r ∈ gs.AckSequences, r.Validate c = none) := by
  rw [← ackLoop_none_iff c _ 0, ← receiptLoop_none_iff c _ 0, ← commitmentLoop_none_iff c _ 0,
    ← sendLoop_none_iff c _ 0, ← recvLoop_none_iff c _ 0, ← ackSeqLoop_none_iff c _ 0]
  unfold recordLoops
  cases ackLoop c gs.Acknowledgements 0 <;> cases receiptLoop c gs.Receipts 0 <;>
    cases commitmentLoop c gs.Commitments 0 <;> cases sendLoop c gs.SendSequences 0 <;>
    cases recvLoop c gs.RecvSequences 0 <;> simp

/-- Validate on a state whose channels are all acceptable. -/
theorem validate_of_channels_ok (c : Collab Cfg E) (gs : GenesisState Cfg P)
    (h : ∀ ch ∈ gs.Channels, channelOk c ch) :
    gs.Validate c =
      if maxParsedSequence c gs.Channels ≠ 0 ∧
          maxParsedSequence c gs.Channels ≥ gs.NextChannelSequence then
        some (orderingError gs.NextChannelSequence (maxParsedSequence c gs.Channels))
      else recordLoops c gs := by
  unfold GenesisState.Validate
  rw [channelLoop_ok c gs.Channels h 0 0]
  simp only [Nat.zero_max]

/-- Validate on a state with a channel that is not acceptable fails. -/
theorem validate_of_channels_bad (c : Collab Cfg E) (gs : GenesisState Cfg P)
    (h : ¬ ∀ ch ∈ gs.Channels, channelOk c ch) :
    gs.Validate c ≠ none := by
  unfold GenesisState.Validate
  cases hl : channelLoop c gs.Channels 0 0 with
  | error e => simp
  | ok r => exact absurd ((channelLoop_ok_iff c gs.Channels 0 0).mp ⟨r, hl⟩) h

/-- Characterisation of the states on which `Validate` returns no error. -/
theorem validate_none_iff (c : Collab Cfg E) (gs : GenesisState Cfg P) :
    gs.Validate c = none ↔
      (∀ ch ∈ gs.Channels,
        (∃ s, c.ParseChannelSequence ch.ChannelId = .ok s) ∧ c.ValidateBasic ch = none) ∧
      (maxParsedSequence c gs.Channels = 0 ∨
        maxParsedSequence c gs.Channels < gs.NextChannelSequence) ∧
      (∀ r ∈ gs.Acknowledgements, r.Validate c = none ∧ len r.Data ≠ 0) ∧
      (∀ r ∈ gs.Receipts, r.Validate c = none) ∧
      (∀ r ∈ gs.Commitments, r.Validate c = none ∧ len r.Data ≠ 0) ∧
      (∀ r ∈ gs.SendSequences, r.Validate c = none) ∧
      (∀ r ∈ gs.RecvSequences, r.Validate c = none) ∧
      (∀ r ∈ gs.AckSequences, r.Validate c = none) := by
  by_cases h : ∀ ch ∈ gs.Channels, channelOk c ch
  · rw [validate_of_channels_ok c gs h]
    have hrec := recordLoops_none_iff c gs
    simp only [payloadOk] at hrec
    by_cases hm : maxParsedSequence c gs.Channels ≠ 0 ∧
        maxParsedSequence c gs.Channels ≥ gs.NextChannelSequence
    · rw [if_pos hm]
      constructor
      · intro h0; cases h0
      · rintro ⟨_, h2, _⟩
        omega
    · rw [if_neg hm, hrec]
      constructor
      · intro h0
        exact ⟨h, by omega, h0⟩
      · rintro ⟨_, _, h3⟩
        exact h3
  · constructor
    · intro h0
      exact absurd h0 (validate_of_channels_bad c gs h)
    · rintro ⟨h1, _⟩
      exact absurd h1 h

theorem ackLoop_ne_orderingError (c : Collab Cfg E) (m k : Nat) (l : List PacketState)
    (i : Nat) : ackLoop c l i ≠ some (orderingError m k) := by
  induction l generalizing i with
  | nil => simp [ackLoop]
  | cons x rest ih =>
    simp only [ackLoop]
    split
    · simp [orderingError]
    · split
      · simp [orderingError]
      · exact ih _

theorem receiptLoop_ne_orderingError (c : Collab Cfg E) (m k : Nat) (l : List PacketState)
    (i : Nat) : receiptLoop c l i ≠ some (orderingError m k) := by
  induction l generalizing i with
  | nil => simp [receiptLoop]
  | cons x rest ih =>
    simp only [receiptLoop]
    split
    · simp [orderingError]
    · exact ih _

theorem commitmentLoop_ne_orderingError (c : Collab Cfg E) (m k : Nat) (l : List PacketState)
    (i : Nat) : commitmentLoop c l i ≠ some (orderingError m k) := by
  induction l generalizing i with
  | nil => simp [commitmentLoop]
  | cons x rest ih =>
    simp only [commitmentLoop]
    split
    · simp [orderingError]
    · split
      · simp [orderingError]
      · exact ih _

theorem sendLoop_ne_orderingError (c : Collab Cfg E) (m k : Nat) (l : List PacketSequence)
    (i : Nat) : sendLoop c l i ≠ some (orderingError m k) := by
  induction l generalizing i with
  | nil => simp [sendLoop]
  | cons x rest ih =>
    simp only [sendLoop]
    split
    · simp [orderingError]
    · exact ih _

theorem recvLoop_ne_orderingError (c : Collab Cfg E) (m k : Nat) (l : List PacketSequence)
    (i : Nat) : recvLoop c l i ≠ some (orderingError m k) := by
  induction l generalizing i with
  | nil => simp [recvLoop]
  | cons x rest ih =>
    simp only [recvLoop]
    split
    · simp [orderingError]
    · exact ih _

theorem ackSeqLoop_ne_orderingError (c : Collab Cfg E) (m k : Nat) (l : List PacketSequence)
    (i : Nat) : ackSeqLoop c l i ≠ some (orderingError m k) := by
  induction l generalizing i with
  | nil => simp [ackSeqLoop]
  | cons x rest ih =>
    simp only [ackSeqLoop]
    split
    · simp [orderingError]
    · exact ih _

/-- None of the six record loops returns the sequence-ordering error. -/
theorem recordLoops_ne_orderingError (c : Collab Cfg E) (gs : GenesisState Cfg P) (m k : Nat) :
    recordLoops c gs ≠ some (orderingError m k) := by
  unfold recordLoops
  cases h1 : ackLoop c gs.Acknowledgements 0 with
  | some e => exact fun hEq => ackLoop_ne_orderingError c m k _ _ (h1.trans hEq)
  | none =>
    cases h2 : receiptLoop c gs.Receipts 0 with
    | some e => exact fun hEq => receiptLoop_ne_orderingError c m k _ _ (h2.trans hEq)
    | none =>
      cases h3 : commitmentLoop c gs.Commitments 0 with
      | some e => exact fun hEq => commitmentLoop_ne_orderingError c m k _ _ (h3.trans hEq)
      | none =>
        cases h4 : sendLoop c gs.SendSequences 0 with
        | some e => exact fun hEq => sendLoop_ne_orderingError c m k _ _ (h4.trans hEq)
        | none =>
          cases h5 : recvLoop c gs.RecvSequences 0 with
          | some e => exact fun hEq => recvLoop_ne_orderingError c m k _ _ (h5.trans hEq)
          | none => exact ackSeqLoop_ne_orderingError c m k _ _

/-- The channel loop never returns the sequence-ordering error. -/
theorem channelLoop_ne_orderingError (c : Collab Cfg E) (m k : Nat)
    (l : List (IdentifiedChannel Cfg)) (i a : Nat) :
    channelLoop c l i a ≠ .error (orderingError m k) := by
  induction l generalizing i a with
  | nil => simp [channelLoop]
  | cons x rest ih =>
    simp only [channelLoop]
    split
    · simp [orderingError]
    · split
      · simp [orderingError]
      · exact ih _ _

theorem firstError_append {α : Type} (a b : List (Option α)) :
    firstError (a ++ b) = (firstError a).or (firstError b) := by
  induction a with
  | nil => simp [firstError]
  | cons x rest ih =>
    cases x with
    | none => simpa [firstError] using ih
    | some e => simp [firstError]

/-- A failing check preceded only by passing checks is the first error. -/
theorem firstError_split {α : Type} (pre post : List (Option α)) (e : α)
    (h : ∀ x ∈ pre, x = none) : firstError (pre ++ some e :: post) = some e := by
  induction pre with
  | nil => simp [firstError]
  | cons x rest ih =>
    have hx : x = none := h x (List.mem_cons_self _ _)
    subst hx
    simpa [firstError] using ih (fun y hy => h y (List.mem_cons_of_mem _ hy))

theorem channelLoop_eq_firstError (c : Collab Cfg E) (l : List (IdentifiedChannel Cfg))
    (i m : Nat) :
    channelLoop c l i m =
      match firstError ((l.enumFrom i).flatMap
          (fun x => [parseCheck c x.2, basicCheck c x.1 x.2])) with
      | some e => .error e
      | none => .ok (max m (maxParsedSequence c l)) := by
  induction l generalizing i m with
  | nil => simp [channelLoop, firstError, maxParsedSequence]
  | cons x rest ih =>
    rw [List.enumFrom_cons, List.flatMap_cons, firstError_append, maxParsedSequence_cons]
    simp only [channelLoop]
    cases hs : c.ParseChannelSequence x.ChannelId with
    | error e => simp [firstError, parseCheck, hs]
    | ok s =>
      cases hv : c.ValidateBasic x with
      | some e => simp [firstError, parseCheck, basicCheck, hs, hv]
      | none =>
        have hmax : max (if s > m then s else m) (maxParsedSequence c rest)
            = max m (max s (maxParsedSequence c rest)) := by
          split <;> omega
        have hp : parsedSequence c x = s := by simp [parsedSequence, hs]
        have hf : firstError [parseCheck c x, basicCheck c i x] = none := by
          simp [firstError, parseCheck, basicCheck, hs, hv]
        simp only [ih, hmax, hp, hf, Option.none_or]

theorem ackLoop_eq_firstError (c : Collab Cfg E) (l : List PacketState) (i : Nat) :
    ackLoop c l i = firstError ((l.enumFrom i).flatMap (fun x =>
      [(x.2.Validate c).map (fun err => .wrapf .ErrInvalidAcknowledgement "%v ack index %d: %s"
          [.packetState x.2, .num x.1] (some err)),
       emptyCheck x.2 (.wrapf .ErrInvalidAcknowledgement
          "%v ack index %d: data bytes cannot be empty" [.packetState x.2, .num x.1] none)])) := by
  induction l generalizing i with
  | nil => simp [ackLoop, firstError]
  | cons x rest ih =>
    rw [List.enumFrom_cons, List.flatMap_cons, firstError_append, ← ih]
    simp only [ackLoop]
    cases hx : x.Validate c with
    | some e => simp [firstError]
    | none =>
      by_cases hl : len x.Data = 0
      · simp [firstError, emptyCheck, hl]
      · simp [firstError, emptyCheck, hl]

theorem receiptLoop_eq_firstError (c : Collab Cfg E) (l : List PacketState) (i : Nat) :
    receiptLoop c l i = firstError ((l.enumFrom i).map (fun x =>
      (x.2.Validate c).map (fun err => .wrapf .ErrInvalidAcknowledgement "%v ack index %d: %s"
          [.packetState x.2, .num x.1] (some err)))) := by
  induction l generalizing i with
  | nil => simp [receiptLoop, firstError]
  | cons x rest ih =>
    rw [List.enumFrom_cons, List.map_cons]
    simp only [receiptLoop]
    cases hx : x.Validate c with
    | some e => simp [firstError]
    | none => simp only [Option.map_none', firstError, ih]

theorem commitmentLoop_eq_firstError (c : Collab Cfg E) (l : List PacketState) (i : Nat) :
    commitmentLoop c l i = firstError ((l.enumFrom i).flatMap (fun x =>
      [(x.2.Validate c).map (fun err => .wrapf .ErrInvalidCommitment "%v index %d: %s"
          [.packetState x.2, .num x.1] (some err)),
       emptyCheck x.2 (.wrapf .ErrInvalidAcknowledgement
          "%v ack index %d: data bytes cannot be empty" [.packetState x.2, .num x.1] none)])) := by
  induction l generalizing i with
  | nil => simp [commitmentLoop, firstError]
  | cons x rest ih =>
    rw [List.enumFrom_cons, List.flatMap_cons, firstError_append, ← ih]
    simp only [commitmentLoop]
    cases hx : x.Validate c with
    | some e => simp [firstError]
    | none =>
      by_cases hl : len x.Data = 0
      · simp [firstError, emptyCheck, hl]
      · simp [firstError, emptyCheck, hl]

theorem sendLoop_eq_firstError (c : Collab Cfg E) (l : List PacketSequence) (i : Nat) :
    sendLoop c l i = firstError ((l.enumFrom i).map (fun x =>
      (x.2.Validate c).map (fun err => .wrapf .ErrInvalidSequence
          "invalid send sequence %v index %d: %s" [.packetSequence x.2, .num x.1] (some err)))) := by
  induction l generalizing i with
  | nil => simp [sendLoop, firstError]
  | cons x rest ih =>
    rw [List.enumFrom_cons, List.map_cons]
    simp only [sendLoop]
    cases hx : x.Validate c with
    | some e => simp [firstError]
    | none => simp only [Option.map_none', firstError, ih]

theorem recvLoop_eq_firstError (c : Collab Cfg E) (l : List PacketSequence) (i : Nat) :
    recvLoop c l i = firstError ((l.enumFrom i).map (fun x =>
      (x.2.Validate c).map (fun err => .errorf "invalid receive sequence %v index %d: %w"
          [.packetSequence x.2, .num x.1] err))) := by
  induction l generalizing i with
  | nil => simp [recvLoop, firstError]
  | cons x rest ih =>
    rw [List.enumFrom_cons, List.map_cons]
    simp only [recvLoop]
    cases hx : x.Validate c with
    | some e => simp [firstError]
    | none => simp only [Option.map_none', firstError, ih]

theorem ackSeqLoop_eq_firstError (c : Collab Cfg E) (l : List PacketSequence) (i : Nat) :
    ackSeqLoop c l i = firstError ((l.enumFrom i).map (fun x =>
      (x.2.Validate c).map (fun err => .wrapf .ErrInvalidAcknowledgement
          "sequence %v index %d: %s" [.packetSequence x.2, .num x.1] (some err)))) := by
  induction l generalizing i with
  | nil => simp [ackSeqLoop, firstError]
  | cons x rest ih =>
    rw [List.enumFrom_cons, List.map_cons]
    simp only [ackSeqLoop]
    cases hx : x.Validate c with
    | some e => simp [firstError]
    | none => simp only [Option.map_none', firstError, ih]

/-- Validate returns the first error of the ordered list of checks. -/
theorem validate_eq_firstError (c : Collab Cfg E) (gs : GenesisState Cfg P) :
    gs.Validate c = firstError (orderedChecks c gs) := by
  unfold GenesisState.Validate orderedChecks recordLoops
  simp only [firstError_append, List.enum, ← ackLoop_eq_firstError, ← receiptLoop_eq_firstError,
    ← commitmentLoop_eq_firstError, ← sendLoop_eq_firstError, ← recvLoop_eq_firstError,
    ← ackSeqLoop_eq_firstError]
  rw [channelLoop_eq_firstError]
  cases hch : firstError ((List.enumFrom 0 gs.Channels).flatMap
      (fun x => [parseCheck c x.2, basicCheck c x.1 x.2])) with
  | some e => simp
  | none =>
    simp only [Nat.zero_max, orderingCheck, firstError]
    by_cases hm : maxParsedSequence c gs.Channels ≠ 0 ∧
        maxParsedSequence c gs.Channels ≥ gs.NextChannelSequence
    · simp [if_pos hm, firstError]
    · simp only [if_neg hm, firstError, Option.none_or]
      cases ackLoop c gs.Acknowledgements 0 <;> cases receiptLoop c gs.Receipts 0 <;>
        cases commitmentLoop c gs.Commitments 0 <;> cases sendLoop c gs.SendSequences 0 <;>
        cases recvLoop c gs.RecvSequences 0 <;> simp

/-- When Validate returns the sequence-ordering error, every channel is acceptable. -/
theorem channels_ok_of_orderingError (c : Collab Cfg E) (gs : GenesisState Cfg P) (m k : Nat)
    (h : gs.Validate c = some (orderingError m k)) :
    ∀ ch ∈ gs.Channels, channelOk c ch := by
  unfold GenesisState.Validate at h
  cases hl : channelLoop c gs.Channels 0 0 with
  | error e =>
    rw [hl] at h
    simp only [Option.some.injEq] at h
    rw [h] at hl
    exact absurd hl (channelLoop_ne_orderingError c m k _ _ _)
  | ok r => exact (channelLoop_ok_iff c gs.Channels 0 0).mp ⟨r, hl⟩

theorem maxParsedSequence_sublist_le (c : Collab Cfg E) {l1 l2 : List (IdentifiedChannel Cfg)}
    (h : l1.Sublist l2) : maxParsedSequence c l1 ≤ maxParsedSequence c l2 := by
  induction h with
  | slnil => exact le_refl _
  | cons x _ ih =>
    rw [maxParsedSequence_cons]
    exact le_trans ih (le_max_right _ _)
  | cons₂ x _ ih =>
    simp only [maxParsedSequence_cons]
    exact max_le_max (le_refl _) ih

/-- The channel loop stops at the first identifier that does not parse and returns the
parser's error. -/
theorem channelLoop_parse_failure (c : Collab Cfg E) (pre post : List (IdentifiedChannel Cfg))
    (ch : IdentifiedChannel Cfg) (x : E) (hpre : ∀ y ∈ pre, channelOk c y)
    (hx : c.ParseChannelSequence ch.ChannelId = .error x) (i m : Nat) :
    channelLoop c (pre ++ ch :: post) i m = .error (.ext x) := by
  induction pre generalizing i m with
  | nil => simp [channelLoop, hx]
  | cons y rest ih =>
    obtain ⟨⟨s, hs⟩, hv⟩ := hpre y (List.mem_cons_self _ _)
    simp only [List.cons_append, channelLoop, hs, hv]
    exact ih (fun z hz => hpre z (List.mem_cons_of_mem _ hz)) _ _

/-- When the channel pass and the sequence comparison pass, Validate is the result of
the record loops. -/
theorem validate_eq_recordLoops (c : Collab Cfg E) (gs : GenesisState Cfg P)
    (h : channelStageOk c gs) : gs.Validate c = recordLoops c gs := by
  rw [validate_of_channels_ok c gs h.1, if_neg]
  have h2 := h.2
  omega

theorem maxParsedSequence_eq_zero (c : Collab Cfg E) (chans : List (IdentifiedChannel Cfg))
    (h : ∀ ch ∈ chans, c.ParseChannelSequence ch.ChannelId = .ok 0) :
    maxParsedSequence c chans = 0 := by
  induction chans with
  | nil => rfl
  | cons x rest ih =>
    rw [maxParsedSequence_cons, ih (fun ch hch => h ch (List.mem_cons_of_mem _ hch))]
    simp [parsedSequence, h x (List.mem_cons_self _ _)]

theorem receiptLoop_first_failure (c : Collab Cfg E) (pre post : List PacketState) (r : PacketState)
    (err : GoError Cfg E) (hpre : ∀ y ∈ pre, y.Validate c = none)
    (hr : r.Validate c = some err) (i : Nat) :
    receiptLoop c (pre ++ r :: post) i = some (.wrapf .ErrInvalidAcknowledgement "%v ack index %d: %s"
      [.packetState r, .num (i + pre.length)] (some err)) := by
  induction pre generalizing i with
  | nil => simp [receiptLoop, hr]
  | cons y rest ih =>
    simp only [List.cons_append, receiptLoop, hpre y (List.mem_cons_self _ _)]
    refine (ih (fun z hz => hpre z (List.mem_cons_of_mem _ hz)) (i + 1)).trans ?_
    rw [List.length_cons, show i + 1 + rest.length = i + (rest.length + 1) by omega]

theorem sendLoop_first_failure (c : Collab Cfg E) (pre post : List PacketSequence) (r : PacketSequence)
    (err : GoError Cfg E) (hpre : ∀ y ∈ pre, y.Validate c = none)
    (hr : r.Validate c = some err) (i : Nat) :
    sendLoop c (pre ++ r :: post) i = some (.wrapf .ErrInvalidSequence "invalid send sequence %v index %d: %s"
      [.packetSequence r, .num (i + pre.length)] (some err)) := by
  induction pre generalizing i with
  | nil => simp [sendLoop, hr]
  | cons y rest ih =>
    simp only [List.cons_append, sendLoop, hpre y (List.mem_cons_self _ _)]
    refine (ih (fun z hz => hpre z (List.mem_cons_of_mem _ hz)) (i + 1)).trans ?_
    rw [List.length_cons, show i + 1 + rest.length = i + (rest.length + 1) by omega]

theorem recvLoop_first_failure (c : Collab Cfg E) (pre post : List PacketSequence) (r : PacketSequence)
    (err : GoError Cfg E) (hpre : ∀ y ∈ pre, y.Validate c = none)
    (hr : r.Validate c = some err) (i : Nat) :
    recvLoop c (pre ++ r :: post) i = some (.errorf "invalid receive sequence %v index %d: %w"
      [.packetSequence r, .num (i + pre.length)] err) := by
  induction pre generalizing i with
  | nil => simp [recvLoop, hr]
  | cons y rest ih =>
    simp only [List.cons_append, recvLoop, hpre y (List.mem_cons_self _ _)]
    refine (ih (fun z hz => hpre z (List.mem_cons_of_mem _ hz)) (i + 1)).trans ?_
    rw [List.length_cons, show i + 1 + rest.length = i + (rest.length + 1) by omega]

theorem ackSeqLoop_first_failure (c : Collab Cfg E) (pre post : List PacketSequence) (r : PacketSequence)
    (err : GoError Cfg E) (hpre : ∀ y ∈ pre, y.Validate c = none)
    (hr : r.Validate c = some err) (i : Nat) :
    ackSeqLoop c (pre ++ r :: post) i = some (.wrapf .ErrInvalidAcknowledgement "sequence %v index %d: %s"
      [.packetSequence r, .num (i + pre.length)] (some err)) := by
  induction pre generalizing i with
  | nil => simp [ackSeqLoop, hr]
  | cons y rest ih =>
    simp only [List.cons_append, ackSeqLoop, hpre y (List.mem_cons_self _ _)]
    refine (ih (fun z hz => hpre z (List.mem_cons_of_mem _ hz)) (i + 1)).trans ?_
    rw [List.length_cons, show i + 1 + rest.length = i + (rest.length + 1) by omega]

theorem commitmentLoop_first_invalid (c : Collab Cfg E) (pre post : List PacketState)
    (r : PacketState) (err : GoError Cfg E) (hpre : ∀ y ∈ pre, payloadOk c y)
    (hr : r.Validate c = some err) (i : Nat) :
    commitmentLoop c (pre ++ r :: post) i = some (.wrapf .ErrInvalidCommitment "%v index %d: %s"
      [.packetState r, .num (i + pre.length)] (some err)) := by
  induction pre generalizing i with
  | nil => simp [commitmentLoop, hr]
  | cons y rest ih =>
    obtain ⟨hy1, hy2⟩ := hpre y (List.mem_cons_self _ _)
    simp only [List.cons_append, commitmentLoop, hy1, hy2, if_false]
    refine (ih (fun z hz => hpre z (List.mem_cons_of_mem _ hz)) (i + 1)).trans ?_
    rw [List.length_cons, show i + 1 + rest.length = i + (rest.length + 1) by omega]

theorem commitmentLoop_first_empty (c : Collab Cfg E) (pre post : List PacketState)
    (r : PacketState) (hpre : ∀ y ∈ pre, payloadOk c y)
    (hr : r.Validate c = none) (hlen : len r.Data = 0) (i : Nat) :
    commitmentLoop c (pre ++ r :: post) i = some (.wrapf .ErrInvalidAcknowledgement
      "%v ack index %d: data bytes cannot be empty"
      [.packetState r, .num (i + pre.length)] none) := by
  induction pre generalizing i with
  | nil => simp [commitmentLoop, hr, hlen]
  | cons y rest ih =>
    obtain ⟨hy1, hy2⟩ := hpre y (List.mem_cons_self _ _)
    simp only [List.cons_append, commitmentLoop, hy1, hy2, if_false]
    refine (ih (fun z hz => hpre z (List.mem_cons_of_mem _ hz)) (i + 1)).trans ?_
    rw [List.length_cons, show i + 1 + rest.length = i + (rest.length + 1) by omega]

theorem firstError_mem {α : Type} (l : List (Option α)) (e : α) (h : firstError l = some e) :
    some e ∈ l := by
  induction l with
  | nil => simp [firstError] at h
  | cons x rest ih =>
    cases x with
    | none => exact List.mem_cons_of_mem _ (ih (by simpa [firstError] using h))
    | some y =>
      simp only [firstError, Option.some.injEq] at h
      subst h
      exact List.mem_cons_self _ _

theorem receiptLoop_some_inv (c : Collab Cfg E) (l : List PacketState) (i : Nat) (e : GoError Cfg E)
    (h : receiptLoop c l i = some e) :
    ∃ (pre : List PacketState) (r : PacketState) (post : List PacketState) (err : GoError Cfg E),
      l = pre ++ r :: post ∧ (∀ y ∈ pre, y.Validate c = none) ∧ r.Validate c = some err ∧
      e = .wrapf .ErrInvalidAcknowledgement "%v ack index %d: %s"
        [.packetState r, .num (i + pre.length)] (some err) := by
  induction l generalizing i with
  | nil => simp [receiptLoop] at h
  | cons x rest ih =>
    simp only [receiptLoop] at h
    cases hx : x.Validate c with
    | some err =>
      rw [hx] at h
      refine ⟨[], x, rest, err, rfl, by simp, hx, ?_⟩
      simpa using (Option.some.inj h).symm
    | none =>
      rw [hx] at h
      obtain ⟨pre, r, post, err, hl, hpre, hr, he⟩ := ih (i + 1) h
      refine ⟨x :: pre, r, post, err, by rw [hl]; rfl, ?_, hr, ?_⟩
      · intro y hy
        rcases List.mem_cons.mp hy with h1 | h1
        · rw [h1]; exact hx
        · exact hpre y h1
      · rw [he, List.length_cons, show i + 1 + pre.length = i + (pre.length + 1) by omega]

theorem sendLoop_some_inv (c : Collab Cfg E) (l : List PacketSequence) (i : Nat) (e : GoError Cfg E)
    (h : sendLoop c l i = some e) :
    ∃ (pre : List PacketSequence) (r : PacketSequence) (post : List PacketSequence) (err : GoError Cfg E),
      l = pre ++ r :: post ∧ (∀ y ∈ pre, y.Validate c = none) ∧ r.Validate c = some err ∧
      e = .wrapf .ErrInvalidSequence "invalid send sequence %v index %d: %s"
        [.packetSequence r, .num (i + pre.length)] (some err) := by
  induction l generalizing i with
  | nil => simp [sendLoop] at h
  | cons x rest ih =>
    simp only [sendLoop] at h
    cases hx : x.Validate c with
    | some err =>
      rw [hx] at h
      refine ⟨[], x, rest, err, rfl, by simp, hx, ?_⟩
      simpa using (Option.some.inj h).symm
    | none =>
      rw [hx] at h
      obtain ⟨pre, r, post, err, hl, hpre, hr, he⟩ := ih (i + 1) h
      refine ⟨x :: pre, r, post, err, by rw [hl]; rfl, ?_, hr, ?_⟩
      · intro y hy
        rcases List.mem_cons.mp hy with h1 | h1
        · rw [h1]; exact hx
        · exact hpre y h1
      · rw [he, List.length_cons, show i + 1 + pre.length = i + (pre.length + 1) by omega]

theorem recvLoop_some_inv (c : Collab Cfg E) (l : List PacketSequence) (i : Nat) (e : GoError Cfg E)
    (h : recvLoop c l i = some e) :
    ∃ (pre : List PacketSequence) (r : PacketSequence) (post : List PacketSequence) (err : GoError Cfg E),
      l = pre ++ r :: post ∧ (∀ y ∈ pre, y.Validate c = none) ∧ r.Validate c = some err ∧
      e = .errorf "invalid receive sequence %v index %d: %w"
        [.packetSequence r, .num (i + pre.length)] err := by
  induction l generalizing i with
  | nil => simp [recvLoop] at h
  | cons x rest ih =>
    simp only [recvLoop] at h
    cases hx : x.Validate c with
    | some err =>
      rw [hx] at h
      refine ⟨[], x, rest, err, rfl, by simp, hx, ?_⟩
      simpa using (Option.some.inj h).symm
    | none =>
      rw [hx] at h
      obtain ⟨pre, r, post, err, hl, hpre, hr, he⟩ := ih (i + 1) h
      refine ⟨x :: pre, r, post, err, by rw [hl]; rfl, ?_, hr, ?_⟩
      · intro y hy
        rcases List.mem_cons.mp hy with h1 | h1
        · rw [h1]; exact hx
        · exact hpre y h1
      · rw [he, List.length_cons, show i + 1 + pre.length = i + (pre.length + 1) by omega]

theorem ackSeqLoop_some_inv (c : Collab Cfg E) (l : List PacketSequence) (i : Nat) (e : GoError Cfg E)
    (h : ackSeqLoop c l i = some e) :
    ∃ (pre : List PacketSequence) (r : PacketSequence) (post : List PacketSequence) (err : GoError Cfg E),
      l = pre ++ r :: post ∧ (∀ y ∈ pre, y.Validate c = none) ∧ r.Validate c = some err ∧
      e = .wrapf .ErrInvalidAcknowledgement "sequence %v index %d: %s"
        [.packetSequence r, .num (i + pre.length)] (some err) := by
  induction l generalizing i with
  | nil => simp [ackSeqLoop] at h
  | cons x rest ih =>
    simp only [ackSeqLoop] at h
    cases hx : x.Validate c with
    | some err =>
      rw [hx] at h
      refine ⟨[], x, rest, err, rfl, by simp, hx, ?_⟩
      simpa using (Option.some.inj h).symm
    | none =>
      rw [hx] at h
      obtain ⟨pre, r, post, err, hl, hpre, hr, he⟩ := ih (i + 1) h
      refine ⟨x :: pre, r, post, err, by rw [hl]; rfl, ?_, hr, ?_⟩
      · intro y hy
        rcases List.mem_cons.mp hy with h1 | h1
        · rw [h1]; exact hx
        · exact hpre y h1
      · rw [he, List.length_cons, show i + 1 + pre.length = i + (pre.length + 1) by omega]

theorem ackLoop_some_inv (c : Collab Cfg E) (l : List PacketState) (i : Nat)
    (e : GoError Cfg E) (h : ackLoop c l i = some e) :
    ∃ (pre : List PacketState) (r : PacketState) (post : List PacketState),
      l = pre ++ r :: post ∧ (∀ y ∈ pre, payloadOk c y) ∧
      ((∃ err, r.Validate c = some err ∧
          e = .wrapf .ErrInvalidAcknowledgement "%v ack index %d: %s"
            [.packetState r, .num (i + pre.length)] (some err)) ∨
        (r.Validate c = none ∧ len r.Data = 0 ∧
          e = .wrapf .ErrInvalidAcknowledgement "%v ack index %d: data bytes cannot be empty"
            [.packetState r, .num (i + pre.length)] none)) := by
  induction l generalizing i with
  | nil => simp [ackLoop] at h
  | cons x rest ih =>
    simp only [ackLoop] at h
    cases hx : x.Validate c with
    | some err =>
      rw [hx] at h
      refine ⟨[], x, rest, rfl, by simp, Or.inl ⟨err, hx, ?_⟩⟩
      simpa using (Option.some.inj h).symm
    | none =>
      rw [hx] at h
      by_cases hlen : len x.Data = 0
      · simp only [hlen, if_true] at h
        refine ⟨[], x, rest, rfl, by simp, Or.inr ⟨hx, hlen, ?_⟩⟩
        simpa using (Option.some.inj h).symm
      · simp only [hlen, if_false] at h
        obtain ⟨pre, r, post, hl, hpre, hcase⟩ := ih (i + 1) h
        refine ⟨x :: pre, r, post, by rw [hl]; rfl, ?_, ?_⟩
        · intro y hy
          rcases List.mem_cons.mp hy with h1 | h1
          · rw [h1]; exact ⟨hx, hlen⟩
          · exact hpre y h1
        · rw [List.length_cons, show i + (pre.length + 1) = i + 1 + pre.length by omega]
          exact hcase

theorem commitmentLoop_some_inv (c : Collab Cfg E) (l : List PacketState) (i : Nat)
    (e : GoError Cfg E) (h : commitmentLoop c l i = some e) :
    ∃ (pre : List PacketState) (r : PacketState) (post : List PacketState),
      l = pre ++ r :: post ∧ (∀ y ∈ pre, payloadOk c y) ∧
      ((∃ err, r.Validate c = some err ∧
          e = .wrapf .ErrInvalidCommitment "%v index %d: %s"
            [.packetState r, .num (i + pre.length)] (some err)) ∨
        (r.Validate c = none ∧ len r.Data = 0 ∧
          e = .wrapf .ErrInvalidAcknowledgement "%v ack index %d: data bytes cannot be empty"
            [.packetState r, .num (i + pre.length)] none)) := by
  induction l generalizing i with
  | nil => simp [commitmentLoop] at h
  | cons x rest ih =>
    simp only [commitmentLoop] at h
    cases hx : x.Validate c with
    | some err =>
      rw [hx] at h
      refine ⟨[], x, rest, rfl, by simp, Or.inl ⟨err, hx, ?_⟩⟩
      simpa using (Option.some.inj h).symm
    | none =>
      rw [hx] at h
      by_cases hlen : len x.Data = 0
      · simp only [hlen, if_true] at h
        refine ⟨[], x, rest, rfl, by simp, Or.inr ⟨hx, hlen, ?_⟩⟩
        simpa using (Option.some.inj h).symm
      · simp only [hlen, if_false] at h
        obtain ⟨pre, r, post, hl, hpre, hcase⟩ := ih (i + 1) h
        refine ⟨x :: pre, r, post, by rw [hl]; rfl, ?_, ?_⟩
        · intro y hy
          rcases List.mem_cons.mp hy with h1 | h1
          · rw [h1]; exact ⟨hx, hlen⟩
          · exact hpre y h1
        · rw [List.length_cons, show i + (pre.length + 1) = i + 1 + pre.length by omega]
          exact hcase

theorem ackLoop_first_invalid (c : Collab Cfg E) (pre post : List PacketState)
    (r : PacketState) (err : GoError Cfg E) (hpre : ∀ y ∈ pre, payloadOk c y)
    (hr : r.Validate c = some err) (i : Nat) :
    ackLoop c (pre ++ r :: post) i = some (.wrapf .ErrInvalidAcknowledgement
      "%v ack index %d: %s" [.packetState r, .num (i + pre.length)] (some err)) := by
  induction pre generalizing i with
  | nil => simp [ackLoop, hr]
  | cons y rest ih =>
    obtain ⟨hy1, hy2⟩ := hpre y (List.mem_cons_self _ _)
    simp only [List.cons_append, ackLoop, hy1, hy2, if_false]
    refine (ih (fun z hz => hpre z (List.mem_cons_of_mem _ hz)) (i + 1)).trans ?_
    rw [List.length_cons, show i + 1 + rest.length = i + (rest.length + 1) by omega]

theorem ackLoop_first_empty (c : Collab Cfg E) (pre post : List PacketState)
    (r : PacketState) (hpre : ∀ y ∈ pre, payloadOk c y)
    (hr : r.Validate c = none) (hlen : len r.Data = 0) (i : Nat) :
    ackLoop c (pre ++ r :: post) i = some (.wrapf .ErrInvalidAcknowledgement
      "%v ack index %d: data bytes cannot be empty"
      [.packetState r, .num (i + pre.length)] none) := by
  induction pre generalizing i with
  | nil => simp [ackLoop, hr, hlen]
  | cons y rest ih =>
    obtain ⟨hy1, hy2⟩ := hpre y (List.mem_cons_self _ _)
    simp only [List.cons_append, ackLoop, hy1, hy2, if_false]
    refine (ih (fun z hz => hpre z (List.mem_cons_of_mem _ hz)) (i + 1)).trans ?_
    rw [List.length_cons, show i + 1 + rest.length = i + (rest.length + 1) by omega]

/-- The channel loop stops at the first channel that parses but fails the structural
validation and wraps the validator's error with the channel and its index. -/
theorem channelLoop_basic_failure (c : Collab Cfg E) (pre post : List (IdentifiedChannel Cfg))
    (ch : IdentifiedChannel Cfg) (x : E) (hpre : ∀ y ∈ pre, channelOk c y)
    (hs : ∃ s, c.ParseChannelSequence ch.ChannelId = .ok s)
    (hx : c.ValidateBasic ch = some x) (i m : Nat) :
    channelLoop c (pre ++ ch :: post) i m =
      .error (.errorf "invalid channel %v channel index %d: %w"
        [.channel ch, .num (i + pre.length)] (.ext x)) := by
  induction pre generalizing i m with
  | nil =>
    obtain ⟨s, hs⟩ := hs
    simp [channelLoop, hs, hx]
  | cons y rest ih =>
    obtain ⟨⟨s, hy⟩, hv⟩ := hpre y (List.mem_cons_self _ _)
    simp only [List.cons_append, channelLoop, hy, hv]
    refine (ih (fun z hz => hpre z (List.mem_cons_of_mem _ hz)) (i + 1) _).trans ?_
    rw [List.length_cons, show i + 1 + rest.length = i + (rest.length + 1) by omega]

/-- An error of the channel loop is the parse error or the wrapped structural error of
the first channel that is not acceptable. -/
theorem channelLoop_error_inv (c : Collab Cfg E) (l : List (IdentifiedChannel Cfg))
    (i m : Nat) (e : GoError Cfg E) (h : channelLoop c l i m = .error e) :
    ∃ (pre : List (IdentifiedChannel Cfg)) (ch : IdentifiedChannel Cfg)
        (post : List (IdentifiedChannel Cfg)) (x : E),
      l = pre ++ ch :: post ∧ (∀ y ∈ pre, channelOk c y) ∧
      ((c.ParseChannelSequence ch.ChannelId = .error x ∧ e = .ext x) ∨
        ((∃ s, c.ParseChannelSequence ch.ChannelId = .ok s) ∧ c.ValidateBasic ch = some x ∧
          e = .errorf "invalid channel %v channel index %d: %w"
            [.channel ch, .num (i + pre.length)] (.ext x))) := by
  induction l generalizing i m with
  | nil => simp [channelLoop] at h
  | cons y rest ih =>
    simp only [channelLoop] at h
    cases hs : c.ParseChannelSequence y.ChannelId with
    | error x =>
      rw [hs] at h
      refine ⟨[], y, rest, x, rfl, by simp, Or.inl ⟨hs, ?_⟩⟩
      simpa using (Except.error.inj h).symm
    | ok s =>
      rw [hs] at h
      cases hv : c.ValidateBasic y with
      | some x =>
        simp only [hv] at h
        refine ⟨[], y, rest, x, rfl, by simp, Or.inr ⟨⟨s, hs⟩, hv, ?_⟩⟩
        simpa using (Except.error.inj h).symm
      | none =>
        simp only [hv] at h
        obtain ⟨pre, ch, post, x, hl, hpre, hcase⟩ := ih _ _ h
        refine ⟨y :: pre, ch, post, x, by rw [hl]; rfl, ?_, ?_⟩
        · intro z hz
          rcases List.mem_cons.mp hz with h1 | h1
          · rw [h1]; exact ⟨⟨s, hs⟩, hv⟩
          · exact hpre z h1
        · rw [List.length_cons, show i + (pre.length + 1) = i + 1 + pre.length by omega]
          exact hcase

/-- The errors of `validateGenFields`: a wrapped identifier error or the zero-sequence
error. -/
theorem validateGenFields_error_shape (c : Collab Cfg E) (p ch : String) (n : Nat)
    (err : GoError Cfg E) (h : validateGenFields c p ch n = some err) :
    (∃ x, err = .errorf "invalid port Id: %w" [] (.ext x)) ∨
    (∃ x, err = .errorf "invalid channel Id: %w" [] (.ext x)) ∨
    (c.PortIdentifierValidator p = none ∧ c.ChannelIdentifierValidator ch = none ∧ n = 0 ∧
      err = .new "sequence cannot be 0") := by
  unfold validateGenFields at h
  cases hp : c.PortIdentifierValidator p with
  | some x =>
    rw [hp] at h
    exact Or.inl ⟨x, (Option.some.inj h).symm⟩
  | none =>
    rw [hp] at h
    cases hc : c.ChannelIdentifierValidator ch with
    | some x =>
      simp only [hc] at h
      exact Or.inr (Or.inl ⟨x, (Option.some.inj h).symm⟩)
    | none =>
      simp only [hc] at h
      by_cases hn : n = 0
      · simp only [hn, if_true] at h
        exact Or.inr (Or.inr ⟨rfl, rfl, hn, (Option.some.inj h).symm⟩)
      · simp [hn] at h

/-- An error returned by Validate is the report of the first failing check. -/
theorem errorContext_of_validate (c : Collab Cfg E) (gs : GenesisState Cfg P)
    (e : GoError Cfg E) (h : gs.Validate c = some e) : errorContext c gs e := by
  unfold errorContext
  by_cases hch : ∀ ch ∈ gs.Channels, channelOk c ch
  · rw [validate_of_channels_ok c gs hch] at h
    by_cases hm : maxParsedSequence c gs.Channels ≠ 0 ∧
        maxParsedSequence c gs.Channels ≥ gs.NextChannelSequence
    · rw [if_pos hm] at h
      right; right; left
      exact ⟨hch, hm.1, hm.2, (Option.some.inj h).symm⟩
    · rw [if_neg hm] at h
      have hstage : channelStageOk c gs := ⟨hch, by omega⟩
      unfold recordLoops at h
      cases hA : ackLoop c gs.Acknowledgements 0 with
      | some err =>
        rw [hA] at h
        have he : err = e := Option.some.inj h
        subst he
        obtain ⟨pre, r, post, hl, hpre, hcase⟩ := ackLoop_some_inv c _ 0 _ hA
        rw [Nat.zero_add] at hcase
        right; right; right; left
        exact ⟨hstage, pre, r, post, hl, hpre, hcase⟩
      | none =>
        rw [hA] at h
        have hAok := (ackLoop_none_iff c _ 0).mp hA
        cases hR : receiptLoop c gs.Receipts 0 with
        | some err =>
          rw [hR] at h
          have he : err = e := Option.some.inj h
          subst he
          obtain ⟨pre, r, post, x, hl, hpre, hr, hcase⟩ := receiptLoop_some_inv c _ 0 _ hR
          rw [Nat.zero_add] at hcase
          right; right; right; right; left
          exact ⟨hstage, hAok, pre, r, post, x, hl, hpre, hr, hcase⟩
        | none =>
          rw [hR] at h
          have hRok := (receiptLoop_none_iff c _ 0).mp hR
          cases hC : commitmentLoop c gs.Commitments 0 with
          | some err =>
            rw [hC] at h
            have he : err = e := Option.some.inj h
            subst he
            obtain ⟨pre, r, post, hl, hpre, hcase⟩ := commitmentLoop_some_inv c _ 0 _ hC
            rw [Nat.zero_add] at hcase
            right; right; right; right; right; left
            exact ⟨hstage, hAok, hRok, pre, r, post, hl, hpre, hcase⟩
          | none =>
            rw [hC] at h
            have hCok := (commitmentLoop_none_iff c _ 0).mp hC
            cases hS : sendLoop c gs.SendSequences 0 with
            | some err =>
              rw [hS] at h
              have he : err = e := Option.some.inj h
              subst he
              obtain ⟨pre, r, post, x, hl, hpre, hr, hcase⟩ := sendLoop_some_inv c _ 0 _ hS
              rw [Nat.zero_add] at hcase
              right; right; right; right; right; right; left
              exact ⟨hstage, hAok, hRok, hCok, pre, r, post, x, hl, hpre, hr, hcase⟩
            | none =>
              rw [hS] at h
              have hSok := (sendLoop_none_iff c _ 0).mp hS
              cases hV : recvLoop c gs.RecvSequences 0 with
              | some err =>
                rw [hV] at h
                have he : err = e := Option.some.inj h
                subst he
                obtain ⟨pre, r, post, x, hl, hpre, hr, hcase⟩ := recvLoop_some_inv c _ 0 _ hV
                rw [Nat.zero_add] at hcase
                right; right; right; right; right; right; right; left
                exact ⟨hstage, hAok, hRok, hCok, hSok, pre, r, post, x, hl, hpre, hr, hcase⟩
              | none =>
                rw [hV] at h
                have hVok := (recvLoop_none_iff c _ 0).mp hV
                obtain ⟨pre, r, post, x, hl, hpre, hr, hcase⟩ := ackSeqLoop_some_inv c _ 0 _ h
                rw [Nat.zero_add] at hcase
                right; right; right; right; right; right; right; right
                exact ⟨hstage, hAok, hRok, hCok, hSok, hVok, pre, r, post, x, hl, hpre, hr,
                  hcase⟩
  · unfold GenesisState.Validate at h
    cases hl : channelLoop c gs.Channels 0 0 with
    | ok m => exact absurd ((channelLoop_ok_iff c gs.Channels 0 0).mp ⟨m, hl⟩) hch
    | error err =>
      rw [hl] at h
      have he : err = e := Option.some.inj h
      subst he
      obtain ⟨pre, ch, post, x, hsplit, hpre, hcase⟩ := channelLoop_error_inv c _ 0 0 _ hl
      rw [Nat.zero_add] at hcase
      rcases hcase with ⟨hp, hx⟩ | ⟨hs, hv, hx⟩
      · left
        exact ⟨pre, ch, post, x, hsplit, hpre, hp, hx⟩
      · right; left
        exact ⟨pre, ch, post, x, hsplit, hpre, hs, hv, hx⟩

/-- The report of the first failing check is what Validate returns. -/
theorem validate_of_errorContext (c : Collab Cfg E) (gs : GenesisState Cfg P)
    (e : GoError Cfg E) (h : errorContext c gs e) : gs.Validate c = some e := by
  unfold errorContext at h
  rcases h with h | h | h | h | h | h | h | h | h
  · obtain ⟨pre, ch, post, x, hsplit, hpre, hp, he⟩ := h
    unfold GenesisState.Validate
    rw [hsplit, channelLoop_parse_failure c pre post ch x hpre hp 0 0, he]
  · obtain ⟨pre, ch, post, x, hsplit, hpre, hs, hv, he⟩ := h
    unfold GenesisState.Validate
    rw [hsplit, channelLoop_basic_failure c pre post ch x hpre hs hv 0 0, Nat.zero_add, he]
  · obtain ⟨hch, hm, hge, he⟩ := h
    rw [validate_of_channels_ok c gs hch, if_pos ⟨hm, hge⟩, he]
    rfl
  · obtain ⟨hstage, pre, r, post, hsplit, hpre, hcase⟩ := h
    rw [validate_eq_recordLoops c gs hstage]
    unfold recordLoops
    rcases hcase with ⟨err, hr, he⟩ | ⟨hr, hlen, he⟩
    · rw [hsplit, ackLoop_first_invalid c pre post r err hpre hr 0, Nat.zero_add, he]
    · rw [hsplit, ackLoop_first_empty c pre post r hpre hr hlen 0, Nat.zero_add, he]
  · obtain ⟨hstage, hA, pre, r, post, err, hsplit, hpre, hr, he⟩ := h
    rw [validate_eq_recordLoops c gs hstage]
    unfold recordLoops
    rw [(ackLoop_none_iff c _ 0).mpr hA, hsplit,
      receiptLoop_first_failure c pre post r err hpre hr 0, Nat.zero_add, he]
  · obtain ⟨hstage, hA, hR, pre, r, post, hsplit, hpre, hcase⟩ := h
    rw [validate_eq_recordLoops c gs hstage]
    unfold recordLoops
    rw [(ackLoop_none_iff c _ 0).mpr hA, (receiptLoop_none_iff c _ 0).mpr hR]
    rcases hcase with ⟨err, hr, he⟩ | ⟨hr, hlen, he⟩
    · rw [hsplit, commitmentLoop_first_invalid c pre post r err hpre hr 0, Nat.zero_add, he]
    · rw [hsplit, commitmentLoop_first_empty c pre post r hpre hr hlen 0, Nat.zero_add, he]
  · obtain ⟨hstage, hA, hR, hC, pre, r, post, err, hsplit, hpre, hr, he⟩ := h
    rw [validate_eq_recordLoops c gs hstage]
    unfold recordLoops
    rw [(ackLoop_none_iff c _ 0).mpr hA, (receiptLoop_none_iff c _ 0).mpr hR,
      (commitmentLoop_none_iff c _ 0).mpr hC, hsplit,
      sendLoop_first_failure c pre post r err hpre hr 0, Nat.zero_add, he]
  · obtain ⟨hstage, hA, hR, hC, hS, pre, r, post, err, hsplit, hpre, hr, he⟩ := h
    rw [validate_eq_recordLoops c gs hstage]
    unfold recordLoops
    rw [(ackLoop_none_iff c _ 0).mpr hA, (receiptLoop_none_iff c _ 0).mpr hR,
      (commitmentLoop_none_iff c _ 0).mpr hC, (sendLoop_none_iff c _ 0).mpr hS, hsplit,
      recvLoop_first_failure c pre post r err hpre hr 0, Nat.zero_add, he]
  · obtain ⟨hstage, hA, hR, hC, hS, hV, pre, r, post, err, hsplit, hpre, hr, he⟩ := h
    rw [validate_eq_recordLoops c gs hstage]
    unfold recordLoops
    rw [(ackLoop_none_iff c _ 0).mpr hA, (receiptLoop_none_iff c _ 0).mpr hR,
      (commitmentLoop_none_iff c _ 0).mpr hC, (sendLoop_none_iff c _ 0).mpr hS,
      (recvLoop_none_iff c _ 0).mpr hV, hsplit,
      ackSeqLoop_first_failure c pre post r err hpre hr 0, Nat.zero_add, he]

/-- When the errors of the other packages carry a registered kind, so does the report of
a failing check, unless it is the report of a receive-sequence record that fails for its
zero sequence. -/
theorem errorContext_hasKind (c : Collab Cfg E) (gs : GenesisState Cfg P)
    (e : GoError Cfg E) (h : errorContext c gs e) (extHasKind : E → Bool)
    (hk : ∀ x, extHasKind x = true) :
    e.hasKind extHasKind = true ∨
    (∃ (pre : List PacketSequence) (r : PacketSequence) (post : List PacketSequence),
      gs.RecvSequences = pre ++ r :: post ∧ (∀ y ∈ pre, y.Validate c = none) ∧
      c.PortIdentifierValidator r.PortId = none ∧
      c.ChannelIdentifierValidator r.ChannelId = none ∧ r.Sequence = 0 ∧
      e = .errorf "invalid receive sequence %v index %d: %w"
        [.packetSequence r, .num pre.length] (.new "sequence cannot be 0")) := by
  unfold errorContext at h
  rcases h with h | h | h | h | h | h | h | h | h
  · obtain ⟨pre, ch, post, x, _, _, _, he⟩ := h
    left; rw [he]; exact hk x
  · obtain ⟨pre, ch, post, x, _, _, _, _, he⟩ := h
    left; rw [he]; exact hk x
  · obtain ⟨_, _, _, he⟩ := h
    left; rw [he]; rfl
  · obtain ⟨_, pre, r, post, _, _, hcase⟩ := h
    rcases hcase with ⟨err, _, he⟩ | ⟨_, _, he⟩ <;> (left; rw [he]; rfl)
  · obtain ⟨_, _, pre, r, post, err, _, _, _, he⟩ := h
    left; rw [he]; rfl
  · obtain ⟨_, _, _, pre, r, post, _, _, hcase⟩ := h
    rcases hcase with ⟨err, _, he⟩ | ⟨_, _, he⟩ <;> (left; rw [he]; rfl)
  · obtain ⟨_, _, _, _, pre, r, post, err, _, _, _, he⟩ := h
    left; rw [he]; rfl
  · obtain ⟨_, _, _, _, _, pre, r, post, err, hsplit, hpre, hr, he⟩ := h
    rcases validateGenFields_error_shape c _ _ _ err hr with ⟨x, hx⟩ | ⟨x, hx⟩ | ⟨hp, hc, hz, hx⟩
    · left; rw [he, hx]; exact hk x
    · left; rw [he, hx]; exact hk x
    · right
      exact ⟨pre, r, post, hsplit, hpre, hp, hc, hz, by rw [he, hx]⟩
  · obtain ⟨_, _, _, _, _, _, pre, r, post, err, _, _, _, he⟩ := h
    left; rw [he]; rfl

end Lemmas

/-! ## The claims -/

section Claims

variable {Cfg P E : Type}

/-- C1: `GenesisState.Validate` succeeds if and only if every channel's identifier parses
and the channel passes `ValidateBasic`, the maximum parsed channel sequence is 0 or is
strictly less than `NextChannelSequence`, every acknowledgement and every commitment
passes `PacketState.Validate` and has data of non-zero length, every receipt passes
`PacketState.Validate`, and every send, receive and ack sequence record passes
`PacketSequence.Validate`; the collaborators are arbitrary. -/
theorem validate_succeeds_iff (c : Collab Cfg E) (gs : GenesisState Cfg P) :
    gs.Validate c = none ↔
      (∀ ch ∈ gs.Channels,
        (∃ s, c.ParseChannelSequence ch.ChannelId = .ok s) ∧ c.ValidateBasic ch = none) ∧
      (maxParsedSequence c gs.Channels = 0 ∨
        maxParsedSequence c gs.Channels < gs.NextChannelSequence) ∧
      (∀ r ∈ gs.Acknowledgements, r.Validate c = none ∧ len r.Data ≠ 0) ∧
      (∀ r ∈ gs.Receipts, r.Validate c = none) ∧
      (∀ r ∈ gs.Commitments, r.Validate c = none ∧ len r.Data ≠ 0) ∧
      (∀ r ∈ gs.SendSequences, r.Validate c = none) ∧
      (∀ r ∈ gs.RecvSequences, r.Validate c = none) ∧
      (∀ r ∈ gs.AckSequences, r.Validate c = none) :=
  validate_none_iff c gs

/-- C2 (evaluation of the code at the failing input): with the single channel
`channel-0`, whose identifier parses to 0, and `NextChannelSequence = 0`, `Validate`
succeeds although `NextChannelSequence` is not strictly greater than the parsed
sequence. -/
theorem validate_accepts_channel_zero_next_zero :
    (sampleState ["channel-0"] 0).Validate sampleCollab = none ∧
    (sampleState ["channel-0"] 0).Channels = [sampleChannel "channel-0"] ∧
    sampleCollab.ParseChannelSequence (sampleChannel "channel-0").ChannelId = .ok 0 ∧
    sampleCollab.ValidateBasic (sampleChannel "channel-0") = none ∧
    ¬ (0 < (sampleState ["channel-0"] 0).NextChannelSequence) := by
  refine ⟨rfl, rfl, rfl, rfl, ?_⟩
  simp [sampleState, NewGenesisState]

/-- C3: when every channel parses and passes `ValidateBasic` and the maximum parsed
sequence `m` is non-zero with `m ≥ NextChannelSequence`, `Validate` fails with an error
of kind `ErrInvalidSequence` that reports `NextChannelSequence` and `m`, whatever the
other collections contain. -/
theorem validate_ordering_violation (c : Collab Cfg E) (gs : GenesisState Cfg P)
    (hch : ∀ ch ∈ gs.Channels,
      (∃ s, c.ParseChannelSequence ch.ChannelId = .ok s) ∧ c.ValidateBasic ch = none)
    (hm : maxParsedSequence c gs.Channels ≠ 0)
    (hge : maxParsedSequence c gs.Channels ≥ gs.NextChannelSequence) :
    gs.Validate c = some (.wrapf .ErrInvalidSequence
      "next channel sequence %d must be greater than maximum sequence used in channel identifier %d"
      [.num gs.NextChannelSequence, .num (maxParsedSequence c gs.Channels)] none) := by
  rw [validate_of_channels_ok c gs hch, if_pos ⟨hm, hge⟩]
  rfl

/-- C3 at one channel embedding sequence 5 with `NextChannelSequence = 5`. -/
theorem validate_ordering_violation_witness :
    (sampleState ["channel-5"] 5).Validate sampleCollab = some (.wrapf .ErrInvalidSequence
      "next channel sequence %d must be greater than maximum sequence used in channel identifier %d"
      [.num 5, .num 5] none) :=
  validate_ordering_violation sampleCollab (sampleState ["channel-5"] 5)
    (by
      intro ch hch
      simp only [sampleState, NewGenesisState, List.map, List.mem_singleton] at hch
      subst hch
      exact ⟨⟨5, rfl⟩, rfl⟩)
    (by decide) (by decide)

/-- C4: for a state whose channels all parse and pass `ValidateBasic` and whose six
other collections are empty, `Validate` succeeds if and only if the maximum of the parsed
sequences over all channels is 0 or is strictly less than `NextChannelSequence`, and the
outcome is the same for every reordering of the channels; channels embedding 3 and 7, in
either order, succeed with `NextChannelSequence = 8` and fail with
`NextChannelSequence = 7`. -/
theorem validate_channels_only_iff :
    (∀ (Cfg P E : Type) (c : Collab Cfg E) (gs : GenesisState Cfg P),
      (∀ ch ∈ gs.Channels,
        (∃ s, c.ParseChannelSequence ch.ChannelId = .ok s) ∧ c.ValidateBasic ch = none) →
      gs.Acknowledgements = [] → gs.Receipts = [] → gs.Commitments = [] →
      gs.SendSequences = [] → gs.RecvSequences = [] → gs.AckSequences = [] →
      ((gs.Validate c = none ↔
          (maxParsedSequence c gs.Channels = 0 ∨
            maxParsedSequence c gs.Channels < gs.NextChannelSequence)) ∧
        (∀ ch ∈ gs.Channels, parsedSequence c ch ≤ maxParsedSequence c gs.Channels) ∧
        (∀ chans : List (IdentifiedChannel Cfg), chans.Perm gs.Channels →
          (({ gs with Channels := chans } : GenesisState Cfg P).Validate c = none ↔
            gs.Validate c = none)))) ∧
    (sampleState ["channel-3", "channel-7"] 8).Validate sampleCollab = none ∧
    (sampleState ["channel-7", "channel-3"] 8).Validate sampleCollab = none ∧
    (sampleState ["channel-3", "channel-7"] 7).Validate sampleCollab
      = some (orderingError 7 7) ∧
    (sampleState ["channel-7", "channel-3"] 7).Validate sampleCollab
      = some (orderingError 7 7) := by
  refine ⟨?_, rfl, rfl, rfl, rfl⟩
  intro Cfg P E c gs hch ha hr hc hs hv hk
  have key := validate_none_iff (P := P) c
  refine ⟨?_, fun ch h => parsedSequence_le_max c gs.Channels ch h, ?_⟩
  · rw [key gs]
    simp only [ha, hr, hc, hs, hv, hk, List.not_mem_nil, false_imp_iff, implies_true, and_true]
    constructor
    · rintro ⟨_, h2⟩
      exact h2
    · intro h2
      exact ⟨hch, h2⟩
  · intro chans hp
    rw [key gs, key]
    simp only [ha, hr, hc, hs, hv, hk, List.not_mem_nil, false_imp_iff, implies_true, and_true,
      maxParsedSequence_perm c hp]
    constructor
    · rintro ⟨_, h2⟩
      exact ⟨hch, h2⟩
    · rintro ⟨_, h2⟩
      exact ⟨fun ch h => hch ch (hp.mem_iff.mp h), h2⟩

/-- C4 at the state with the channels `channel-3` and `channel-7` and next sequence 8. -/
theorem validate_channels_only_iff_witness :
    (sampleState ["channel-3", "channel-7"] 8).Validate sampleCollab = none ↔
      (maxParsedSequence sampleCollab (sampleState ["channel-3", "channel-7"] 8).Channels = 0 ∨
        maxParsedSequence sampleCollab (sampleState ["channel-3", "channel-7"] 8).Channels
          < (sampleState ["channel-3", "channel-7"] 8).NextChannelSequence) :=
  (validate_channels_only_iff.1 Bool Unit String sampleCollab
    (sampleState ["channel-3", "channel-7"] 8)
    (by
      intro ch hch
      simp only [sampleState, NewGenesisState, List.map, List.mem_cons, List.mem_singleton,
        List.not_mem_nil, or_false] at hch
      rcases hch with h | h
      · subst h; exact ⟨⟨3, rfl⟩, rfl⟩
      · subst h; exact ⟨⟨7, rfl⟩, rfl⟩)
    rfl rfl rfl rfl rfl rfl).1

/-- C5: `Validate` succeeds on the state returned by `DefaultGenesisState()`, whose
seven collections are empty and whose `NextChannelSequence` is 0. -/
theorem validate_default_genesis (c : Collab Cfg E) (defaultParams : P) :
    (DefaultGenesisState Cfg defaultParams).Validate c = none ∧
    (DefaultGenesisState Cfg defaultParams).Channels = [] ∧
    (DefaultGenesisState Cfg defaultParams).Acknowledgements = [] ∧
    (DefaultGenesisState Cfg defaultParams).Receipts = [] ∧
    (DefaultGenesisState Cfg defaultParams).Commitments = [] ∧
    (DefaultGenesisState Cfg defaultParams).SendSequences = [] ∧
    (DefaultGenesisState Cfg defaultParams).RecvSequences = [] ∧
    (DefaultGenesisState Cfg defaultParams).AckSequences = [] ∧
    (DefaultGenesisState Cfg defaultParams).NextChannelSequence = 0 ∧
    (DefaultGenesisState Cfg defaultParams).Params = defaultParams :=
  ⟨rfl, rfl, rfl, rfl, rfl, rfl, rfl, rfl, rfl, rfl⟩

/-- C6: for a state with no channel, the result of `Validate` is the same for every
value of `NextChannelSequence`, it is never the sequence-ordering error, and when the
records of the other collections are valid it is success. -/
theorem validate_no_channels (c : Collab Cfg E) (gs : GenesisState Cfg P)
    (h : gs.Channels = []) :
    (∀ n m : Nat, ({ gs with NextChannelSequence := n } : GenesisState Cfg P).Validate c =
        ({ gs with NextChannelSequence := m } : GenesisState Cfg P).Validate c) ∧
    (∀ n : Nat, ({ gs with NextChannelSequence := n } : GenesisState Cfg P).Validate c =
        gs.Validate c) ∧
    (∀ n m k : Nat, ({ gs with NextChannelSequence := n } : GenesisState Cfg P).Validate c ≠
        some (orderingError m k)) ∧
    ((∀ r ∈ gs.Acknowledgements, r.Validate c = none ∧ len r.Data ≠ 0) →
      (∀ r ∈ gs.Receipts, r.Validate c = none) →
      (∀ r ∈ gs.Commitments, r.Validate c = none ∧ len r.Data ≠ 0) →
      (∀ r ∈ gs.SendSequences, r.Validate c = none) →
      (∀ r ∈ gs.RecvSequences, r.Validate c = none) →
      (∀ r ∈ gs.AckSequences, r.Validate c = none) →
      ∀ n : Nat, ({ gs with NextChannelSequence := n } : GenesisState Cfg P).Validate c
        = none) := by
  have hrl : ∀ n : Nat,
      ({ gs with NextChannelSequence := n } : GenesisState Cfg P).Validate c
        = recordLoops c gs := by
    intro n
    simp [GenesisState.Validate, h, channelLoop, recordLoops]
  have hgs : gs.Validate c = recordLoops c gs := by
    simp [GenesisState.Validate, h, channelLoop]
  refine ⟨fun n m => by rw [hrl n, hrl m], fun n => by rw [hrl n, hgs], ?_, ?_⟩
  · intro n m k
    rw [hrl n]
    exact recordLoops_ne_orderingError c gs m k
  · intro h1 h2 h3 h4 h5 h6 n
    rw [hrl n]
    exact (recordLoops_none_iff c gs).mpr ⟨h1, h2, h3, h4, h5, h6⟩

/-- C6 at a state without channels, next sequences 0 and 9. -/
theorem validate_no_channels_witness :
    (sampleNoChannels 0).Validate sampleCollab = none ∧
    (sampleNoChannels 9).Validate sampleCollab = none ∧
    (sampleNoChannels 0).Channels = [] ∧
    (({ sampleNoChannels 0 with NextChannelSequence := 9 } :
        GenesisState Bool Unit).Validate sampleCollab
      = (sampleNoChannels 0).Validate sampleCollab) :=
  ⟨rfl, rfl, rfl, (validate_no_channels sampleCollab (sampleNoChannels 0) rfl).2.1 9⟩

/-- C7: a `PacketState` whose data is nil fails `PacketState.Validate` with the error
"data bytes cannot be nil", whatever its port id, channel id and sequence. -/
theorem packetState_nil_data (c : Collab Cfg E) (pa : PacketState) (h : pa.Data = none) :
    pa.Validate c = some (.new "data bytes cannot be nil") := by
  simp [PacketState.Validate, h]

/-- C7 at a record whose port id, channel id and sequence are all invalid. -/
theorem packetState_nil_data_witness :
    sampleCollab.PortIdentifierValidator "" ≠ none ∧
    sampleCollab.ChannelIdentifierValidator "" ≠ none ∧
    (NewPacketState "" "" 0 none).Validate sampleCollab
      = some (.new "data bytes cannot be nil") :=
  ⟨by decide, by decide, packetState_nil_data sampleCollab (NewPacketState "" "" 0 none) rfl⟩

/-- C8: for a record with a valid port id, a valid channel id, a non-zero sequence and
data that is non-nil but of length zero, the default genesis state with that record as
its only acknowledgement fails `Validate` (empty-data error), so does the default state
with it as its only commitment, and the default state with it as its only receipt
passes. -/
theorem validate_empty_data_record (c : Collab Cfg E) (defaultParams : P) (r : PacketState)
    (hport : c.PortIdentifierValidator r.PortId = none)
    (hchan : c.ChannelIdentifierValidator r.ChannelId = none)
    (hseq : r.Sequence ≠ 0) (hnil : r.Data ≠ none) (hlen : len r.Data = 0) :
    (({ DefaultGenesisState Cfg defaultParams with Acknowledgements := [r] } :
        GenesisState Cfg P).Validate c
      = some (.wrapf .ErrInvalidAcknowledgement "%v ack index %d: data bytes cannot be empty"
          [.packetState r, .num 0] none)) ∧
    (({ DefaultGenesisState Cfg defaultParams with Commitments := [r] } :
        GenesisState Cfg P).Validate c
      = some (.wrapf .ErrInvalidAcknowledgement "%v ack index %d: data bytes cannot be empty"
          [.packetState r, .num 0] none)) ∧
    (({ DefaultGenesisState Cfg defaultParams with Receipts := [r] } :
        GenesisState Cfg P).Validate c = none) := by
  have hv : r.Validate c = none := by
    cases hd : r.Data with
    | none => exact absurd hd hnil
    | some bs => simp [PacketState.Validate, hd, validateGenFields, hport, hchan, hseq]
  refine ⟨?_, ?_, ?_⟩
  · simp [GenesisState.Validate, DefaultGenesisState, channelLoop, recordLoops, ackLoop, hv, hlen]
  · simp [GenesisState.Validate, DefaultGenesisState, channelLoop, recordLoops, ackLoop,
      receiptLoop, commitmentLoop, hv, hlen]
  · simp [GenesisState.Validate, DefaultGenesisState, channelLoop, recordLoops, ackLoop,
      receiptLoop, commitmentLoop, sendLoop, recvLoop, ackSeqLoop, hv]

/-- C8 at the record `transfer/channel-0`, sequence 1, with data of length zero. -/
theorem validate_empty_data_record_witness :
    (NewGenesisState [] [] [NewPacketState "transfer" "channel-0" 1 (some [])] [] [] [] [] 0 ()
        : GenesisState Bool Unit).Validate sampleCollab = none ∧
    (({ DefaultGenesisState Bool () with
          Acknowledgements := [NewPacketState "transfer" "channel-0" 1 (some [])] } :
        GenesisState Bool Unit).Validate sampleCollab
      = some (.wrapf .ErrInvalidAcknowledgement "%v ack index %d: data bytes cannot be empty"
          [.packetState (NewPacketState "transfer" "channel-0" 1 (some [])), .num 0] none)) :=
  ⟨rfl, (validate_empty_data_record sampleCollab ()
    (NewPacketState "transfer" "channel-0" 1 (some [])) rfl rfl (by decide) (by decide) rfl).1⟩

/-- C9 (as stated, refuted): the sequence record with an empty port id and sequence 0
fails `PacketSequence.Validate` with the port-identifier error, which is not the
zero-sequence error. -/
theorem packetSequence_zero_bad_port :
    (NewPacketSequence "" "channel-0" 0).Sequence = 0 ∧
    (NewPacketSequence "" "channel-0" 0).Validate sampleCollab
      = some (.errorf "invalid port Id: %w" [] (.ext "identifier cannot be blank")) ∧
    (NewPacketSequence "" "channel-0" 0).Validate sampleCollab
      ≠ some (.new "sequence cannot be 0") := by
  refine ⟨rfl, rfl, ?_⟩
  intro h
  have h2 : (NewPacketSequence "" "channel-0" 0).Validate sampleCollab
      = some (.errorf "invalid port Id: %w" [] (.ext "identifier cannot be blank")) := rfl
  rw [h2] at h
  cases h

/-- C9 (amended): a sequence record with `Sequence == 0` fails
`PacketSequence.Validate` whatever its port id and channel id, and the error is the
zero-sequence error "sequence cannot be 0" exactly when the port id and the channel id
pass their identifier validators. -/
theorem packetSequence_zero_fails (c : Collab Cfg E) (ps : PacketSequence)
    (h : ps.Sequence = 0) :
    ps.Validate c ≠ none ∧
    (ps.Validate c = some (.new "sequence cannot be 0") ↔
      (c.PortIdentifierValidator ps.PortId = none ∧
        c.ChannelIdentifierValidator ps.ChannelId = none)) := by
  unfold PacketSequence.Validate validateGenFields
  cases hp : c.PortIdentifierValidator ps.PortId with
  | some e => simp
  | none =>
    cases hc : c.ChannelIdentifierValidator ps.ChannelId with
    | some e => simp
    | none => simp [h]

/-- C9 (amended) at the record `transfer/channel-0` with sequence 0. -/
theorem packetSequence_zero_fails_witness :
    (NewPacketSequence "transfer" "channel-0" 0).Validate sampleCollab
      = some (.new "sequence cannot be 0") :=
  (packetSequence_zero_fails sampleCollab (NewPacketSequence "transfer" "channel-0" 0) rfl).2.mpr
    ⟨rfl, rfl⟩

/-- C10: `Validate` returns the first error of the checks taken in the fixed order
(channels in index order, identifier parse then structural validation; the sequence
comparison; acknowledgements, receipts, commitments, send, receive and ack sequences in
index order): a failing check preceded only by passing checks gives the result whatever
comes after it, and the sequence-ordering error is returned only when every channel
parsed and passed structural validation. -/
theorem validate_first_error_in_order :
    (∀ (Cfg P E : Type) (c : Collab Cfg E) (gs : GenesisState Cfg P),
      gs.Validate c = firstError (orderedChecks c gs)) ∧
    (∀ (Cfg P E : Type) (c : Collab Cfg E) (gs : GenesisState Cfg P)
        (pre post : List (Option (GoError Cfg E))) (e : GoError Cfg E),
      orderedChecks c gs = pre ++ some e :: post → (∀ x ∈ pre, x = none) →
      gs.Validate c = some e) ∧
    (∀ (Cfg P E : Type) (c : Collab Cfg E) (gs : GenesisState Cfg P) (m k : Nat),
      gs.Validate c = some (orderingError m k) →
      ∀ ch ∈ gs.Channels,
        (∃ s, c.ParseChannelSequence ch.ChannelId = .ok s) ∧ c.ValidateBasic ch = none) := by
  refine ⟨?_, ?_, ?_⟩
  · intro Cfg P E c gs
    exact validate_eq_firstError c gs
  · intro Cfg P E c gs pre post e hsplit hpre
    rw [validate_eq_firstError c gs, hsplit]
    exact firstError_split pre post e hpre
  · intro Cfg P E c gs m k h
    exact channels_ok_of_orderingError c gs m k h

/-- C10 at a state with failing acknowledgements at indices 1 and 2, a failing receipt
and a failing send sequence record: the error is the one of acknowledgement 1. -/
theorem validate_first_error_in_order_witness :
    sampleManyFailures.Validate sampleCollab
      = some (.wrapf .ErrInvalidAcknowledgement "%v ack index %d: %s"
          [.packetState (NewPacketState "transfer" "channel-0" 0 (some [1])), .num 1]
          (some (.new "sequence cannot be 0"))) :=
  validate_first_error_in_order.2.1 Bool Unit String sampleCollab sampleManyFailures
    [none, none, none, none, none]
    [none, none, some (.wrapf .ErrInvalidAcknowledgement
        "%v ack index %d: data bytes cannot be empty"
        [.packetState (NewPacketState "transfer" "channel-0" 3 (some [])), .num 2] none),
      some (.wrapf .ErrInvalidAcknowledgement "%v ack index %d: %s"
        [.packetState (NewPacketState "transfer" "channel-0" 1 none), .num 0]
        (some (.new "data bytes cannot be nil"))),
      some (.wrapf .ErrInvalidSequence "invalid send sequence %v index %d: %s"
        [.packetSequence (NewPacketSequence "" "channel-0" 1), .num 0]
        (some (.errorf "invalid port Id: %w" [] (.ext "identifier cannot be blank"))))]
    _ rfl (by simp)

/-- C11: when channel `i` is the first channel whose identifier fails to parse and
every channel before it parses and passes `ValidateBasic`, `Validate` returns exactly the
error reported by the sequence parser, with no wrapping, index or kind added. -/
theorem validate_parse_failure_as_is (c : Collab Cfg E) (gs : GenesisState Cfg P)
    (pre post : List (IdentifiedChannel Cfg)) (ch : IdentifiedChannel Cfg) (x : E)
    (hsplit : gs.Channels = pre ++ ch :: post)
    (hpre : ∀ y ∈ pre,
      (∃ s, c.ParseChannelSequence y.ChannelId = .ok s) ∧ c.ValidateBasic y = none)
    (hx : c.ParseChannelSequence ch.ChannelId = .error x) :
    gs.Validate c = some (.ext x) := by
  unfold GenesisState.Validate
  rw [hsplit, channelLoop_parse_failure c pre post ch x hpre hx 0 0]

/-- C11 at the channels `channel-0`, `chan`, `channel-2`: the second identifier does not
parse. -/
theorem validate_parse_failure_as_is_witness :
    (sampleState ["channel-0", "chan", "channel-2"] 5).Validate sampleCollab
      = some (.ext "invalid channel identifier") :=
  validate_parse_failure_as_is sampleCollab (sampleState ["channel-0", "chan", "channel-2"] 5)
    [sampleChannel "channel-0"] [sampleChannel "channel-2"] (sampleChannel "chan")
    "invalid channel identifier" rfl
    (by
      intro y hy
      simp only [List.mem_singleton] at hy
      subst hy
      exact ⟨⟨0, rfl⟩, rfl⟩)
    rfl

/-- C13: `PacketSequence.Validate` succeeds if and only if the port id and the channel id
pass their validators and the sequence is non-zero; `PacketState.Validate` succeeds if and
only if in addition the data is non-nil (data of length zero is accepted); and the error
reported is the one of the first failing condition in the order nil data, port id,
channel id, sequence. -/
theorem validate_fields_iff (c : Collab Cfg E) (ps : PacketSequence) (pa : PacketState) :
    (ps.Validate c = none ↔
      (c.PortIdentifierValidator ps.PortId = none ∧
        c.ChannelIdentifierValidator ps.ChannelId = none ∧ ps.Sequence ≠ 0)) ∧
    (pa.Validate c = none ↔
      (pa.Data ≠ none ∧ c.PortIdentifierValidator pa.PortId = none ∧
        c.ChannelIdentifierValidator pa.ChannelId = none ∧ pa.Sequence ≠ 0)) ∧
    (pa.Data = some [] → c.PortIdentifierValidator pa.PortId = none →
      c.ChannelIdentifierValidator pa.ChannelId = none → pa.Sequence ≠ 0 →
      pa.Validate c = none) ∧
    (pa.Data = none → pa.Validate c = some (.new "data bytes cannot be nil")) ∧
    (∀ x, pa.Data ≠ none → c.PortIdentifierValidator pa.PortId = some x →
      pa.Validate c = some (.errorf "invalid port Id: %w" [] (.ext x))) ∧
    (∀ x, pa.Data ≠ none → c.PortIdentifierValidator pa.PortId = none →
      c.ChannelIdentifierValidator pa.ChannelId = some x →
      pa.Validate c = some (.errorf "invalid channel Id: %w" [] (.ext x))) ∧
    (pa.Data ≠ none → c.PortIdentifierValidator pa.PortId = none →
      c.ChannelIdentifierValidator pa.ChannelId = none → pa.Sequence = 0 →
      pa.Validate c = some (.new "sequence cannot be 0")) ∧
    (∀ x, c.PortIdentifierValidator ps.PortId = some x →
      ps.Validate c = some (.errorf "invalid port Id: %w" [] (.ext x))) ∧
    (∀ x, c.PortIdentifierValidator ps.PortId = none →
      c.ChannelIdentifierValidator ps.ChannelId = some x →
      ps.Validate c = some (.errorf "invalid channel Id: %w" [] (.ext x))) ∧
    (c.PortIdentifierValidator ps.PortId = none →
      c.ChannelIdentifierValidator ps.ChannelId = none → ps.Sequence = 0 →
      ps.Validate c = some (.new "sequence cannot be 0")) := by
  have hgen : ∀ (p ch : String) (n : Nat),
      (validateGenFields c p ch n = none ↔
        (c.PortIdentifierValidator p = none ∧ c.ChannelIdentifierValidator ch = none ∧ n ≠ 0)) := by
    intro p ch n
    unfold validateGenFields
    cases c.PortIdentifierValidator p with
    | some e => simp
    | none =>
      cases c.ChannelIdentifierValidator ch with
      | some e => simp
      | none => simp
  refine ⟨hgen _ _ _, ?_, ?_, ?_, ?_, ?_, ?_, ?_, ?_, ?_⟩
  · unfold PacketState.Validate
    cases hd : pa.Data with
    | none => simp
    | some bs => simpa using hgen _ _ _
  · intro hd hp hc hs
    simp [PacketState.Validate, hd, validateGenFields, hp, hc, hs]
  · intro hd
    simp [PacketState.Validate, hd]
  · intro x hd hp
    cases hd2 : pa.Data with
    | none => exact absurd hd2 hd
    | some bs => simp [PacketState.Validate, hd2, validateGenFields, hp]
  · intro x hd hp hc
    cases hd2 : pa.Data with
    | none => exact absurd hd2 hd
    | some bs => simp [PacketState.Validate, hd2, validateGenFields, hp, hc]
  · intro hd hp hc hs
    cases hd2 : pa.Data with
    | none => exact absurd hd2 hd
    | some bs => simp [PacketState.Validate, hd2, validateGenFields, hp, hc, hs]
  · intro x hp
    simp [PacketSequence.Validate, validateGenFields, hp]
  · intro x hp hc
    simp [PacketSequence.Validate, validateGenFields, hp, hc]
  · intro hp hc hs
    simp [PacketSequence.Validate, validateGenFields, hp, hc, hs]

/-- C13 at a record with nil data, empty port id, empty channel id and sequence 0, and at
the same record with non-nil data. -/
theorem validate_fields_iff_witness :
    (NewPacketState "" "" 0 none).Validate sampleCollab
      = some (.new "data bytes cannot be nil") ∧
    (NewPacketState "" "" 0 (some [])).Validate sampleCollab
      = some (.errorf "invalid port Id: %w" [] (.ext "identifier cannot be blank")) :=
  ⟨(validate_fields_iff sampleCollab (NewPacketSequence "" "" 0)
      (NewPacketState "" "" 0 none)).2.2.2.1 rfl,
   (validate_fields_iff sampleCollab (NewPacketSequence "" "" 0)
      (NewPacketState "" "" 0 (some []))).2.2.2.2.1 "identifier cannot be blank"
        (by decide) rfl⟩

/-- C14: the constructors store each argument verbatim in the field of the same name. -/
theorem constructors_store_verbatim (p ch : String) (s : Nat) (d : Option (List Nat))
    (channels : List (IdentifiedChannel Cfg)) (acks receipts commitments : List PacketState)
    (sendSeqs recvSeqs ackSeqs : List PacketSequence) (next : Nat) (params : P) :
    ((NewPacketState p ch s d).PortId = p ∧ (NewPacketState p ch s d).ChannelId = ch ∧
      (NewPacketState p ch s d).Sequence = s ∧ (NewPacketState p ch s d).Data = d) ∧
    ((NewPacketSequence p ch s).PortId = p ∧ (NewPacketSequence p ch s).ChannelId = ch ∧
      (NewPacketSequence p ch s).Sequence = s) ∧
    ((NewGenesisState channels acks receipts commitments sendSeqs recvSeqs ackSeqs next
        params).Channels = channels ∧
      (NewGenesisState channels acks receipts commitments sendSeqs recvSeqs ackSeqs next
        params).Acknowledgements = acks ∧
      (NewGenesisState channels acks receipts commitments sendSeqs recvSeqs ackSeqs next
        params).Receipts = receipts ∧
      (NewGenesisState channels acks receipts commitments sendSeqs recvSeqs ackSeqs next
        params).Commitments = commitments ∧
      (NewGenesisState channels acks receipts commitments sendSeqs recvSeqs ackSeqs next
        params).SendSequences = sendSeqs ∧
      (NewGenesisState channels acks receipts commitments sendSeqs recvSeqs ackSeqs next
        params).RecvSequences = recvSeqs ∧
      (NewGenesisState channels acks receipts commitments sendSeqs recvSeqs ackSeqs next
        params).AckSequences = ackSeqs ∧
      (NewGenesisState channels acks receipts commitments sendSeqs recvSeqs ackSeqs next
        params).NextChannelSequence = next ∧
      (NewGenesisState channels acks receipts commitments sendSeqs recvSeqs ackSeqs next
        params).Params = params) :=
  ⟨⟨rfl, rfl, rfl, rfl⟩, ⟨rfl, rfl, rfl⟩, ⟨rfl, rfl, rfl, rfl, rfl, rfl, rfl, rfl, rfl⟩⟩

/-- C17: for every state whose channels all parse to sequence 0 and pass `ValidateBasic`
and whose other collections are valid, `Validate` succeeds for every
`NextChannelSequence`, 0 included; the single channel `channel-0` with
`NextChannelSequence = 0` is such a state with a non-empty channel list. -/
theorem validate_skips_ordering_at_zero :
    (∀ (Cfg P E : Type) (c : Collab Cfg E) (gs : GenesisState Cfg P),
      (∀ ch ∈ gs.Channels,
        c.ParseChannelSequence ch.ChannelId = .ok 0 ∧ c.ValidateBasic ch = none) →
      (∀ r ∈ gs.Acknowledgements, r.Validate c = none ∧ len r.Data ≠ 0) →
      (∀ r ∈ gs.Receipts, r.Validate c = none) →
      (∀ r ∈ gs.Commitments, r.Validate c = none ∧ len r.Data ≠ 0) →
      (∀ r ∈ gs.SendSequences, r.Validate c = none) →
      (∀ r ∈ gs.RecvSequences, r.Validate c = none) →
      (∀ r ∈ gs.AckSequences, r.Validate c = none) →
      ∀ n : Nat, ({ gs with NextChannelSequence := n } : GenesisState Cfg P).Validate c
        = none) ∧
    ((sampleState ["channel-0"] 0).Channels ≠ [] ∧
      (sampleState ["channel-0"] 0).NextChannelSequence = 0 ∧
      (sampleState ["channel-0"] 0).Validate sampleCollab = none) := by
  refine ⟨?_, by simp [sampleState, NewGenesisState], rfl, rfl⟩
  intro Cfg P E c gs hch h1 h2 h3 h4 h5 h6 n
  rw [validate_none_iff]
  refine ⟨fun ch h => ⟨⟨0, (hch ch h).1⟩, (hch ch h).2⟩, ?_, h1, h2, h3, h4, h5, h6⟩
  left
  exact maxParsedSequence_eq_zero c gs.Channels (fun ch h => (hch ch h).1)

/-- C17 at two channels that both carry the identifier `channel-0`, next sequence 0. -/
theorem validate_skips_ordering_at_zero_witness :
    (sampleState ["channel-0", "channel-0"] 0).Validate sampleCollab = none :=
  validate_skips_ordering_at_zero.1 Bool Unit String sampleCollab
    (sampleState ["channel-0", "channel-0"] 0)
    (by
      intro ch hch
      simp only [sampleState, NewGenesisState, List.map, List.mem_cons, List.mem_singleton,
        List.not_mem_nil, or_false, or_self] at hch
      subst hch
      exact ⟨rfl, rfl⟩)
    (by intro r hr; cases hr) (by intro r hr; cases hr) (by intro r hr; cases hr)
    (by intro r hr; cases hr) (by intro r hr; cases hr) (by intro r hr; cases hr) 0

/-- C18: `Validate` is monotone in `NextChannelSequence`: when it succeeds on a state it
succeeds on the state with `NextChannelSequence` replaced by any larger value. -/
theorem validate_monotone_in_next (c : Collab Cfg E) (gs : GenesisState Cfg P) (n : Nat)
    (h : gs.Validate c = none) (hn : n ≥ gs.NextChannelSequence) :
    ({ gs with NextChannelSequence := n } : GenesisState Cfg P).Validate c = none := by
  rw [validate_none_iff] at h ⊢
  obtain ⟨h0, hm, h1⟩ := h
  refine ⟨h0, ?_, h1⟩
  show maxParsedSequence c gs.Channels = 0 ∨ maxParsedSequence c gs.Channels < n
  omega

/-- C18 at the state with channel `channel-5`, raising the next sequence from 6 to 9. -/
theorem validate_monotone_in_next_witness :
    (sampleState ["channel-5"] 6).Validate sampleCollab = none ∧
    ({ sampleState ["channel-5"] 6 with NextChannelSequence := 9 } :
      GenesisState Bool Unit).Validate sampleCollab = none :=
  ⟨rfl, validate_monotone_in_next sampleCollab (sampleState ["channel-5"] 6) 9 rfl
    (by decide)⟩

/-- C19: the result of `Validate` does not depend on `Params`: two states that agree on
every field except `Params` give the same result (the same success or the same error). -/
theorem validate_independent_of_params (c : Collab Cfg E) (gs1 gs2 : GenesisState Cfg P)
    (hch : gs1.Channels = gs2.Channels)
    (hack : gs1.Acknowledgements = gs2.Acknowledgements)
    (hrc : gs1.Receipts = gs2.Receipts)
    (hcm : gs1.Commitments = gs2.Commitments)
    (hss : gs1.SendSequences = gs2.SendSequences)
    (hrs : gs1.RecvSequences = gs2.RecvSequences)
    (has : gs1.AckSequences = gs2.AckSequences)
    (hn : gs1.NextChannelSequence = gs2.NextChannelSequence) :
    gs1.Validate c = gs2.Validate c := by
  unfold GenesisState.Validate recordLoops
  rw [hch, hack, hrc, hcm, hss, hrs, has, hn]

/-- C19 at two states that differ only in `Params`, one pair passing and one failing. -/
theorem validate_independent_of_params_witness :
    (sampleWithParams 1 true).Params ≠ (sampleWithParams 1 false).Params ∧
    (sampleWithParams 1 true).Validate sampleCollab
      = (sampleWithParams 1 false).Validate sampleCollab ∧
    (sampleWithParams 1 true).Validate sampleCollab = none ∧
    (sampleWithParams 0 false).Validate sampleCollab ≠ none :=
  ⟨by decide,
   validate_independent_of_params sampleCollab (sampleWithParams 1 true)
     (sampleWithParams 1 false) rfl rfl rfl rfl rfl rfl rfl rfl,
   rfl, by
     intro h
     have h2 : (sampleWithParams 0 false).Validate sampleCollab
         = some (.wrapf .ErrInvalidAcknowledgement "%v ack index %d: %s"
            [.packetState (NewPacketState "transfer" "channel-3" 0 (some [1])), .num 0]
            (some (.new "sequence cannot be 0"))) := rfl
     rw [h2] at h
     cases h⟩

/-- C20: validity is preserved by removing records: when `Validate` succeeds on a state
it succeeds on every state with the same `NextChannelSequence` whose seven collections
are obtained from the original ones by deleting elements. -/
theorem validate_preserved_by_removal (c : Collab Cfg E) (gs gs2 : GenesisState Cfg P)
    (h : gs.Validate c = none)
    (hch : gs2.Channels.Sublist gs.Channels)
    (hack : gs2.Acknowledgements.Sublist gs.Acknowledgements)
    (hrc : gs2.Receipts.Sublist gs.Receipts)
    (hcm : gs2.Commitments.Sublist gs.Commitments)
    (hss : gs2.SendSequences.Sublist gs.SendSequences)
    (hrs : gs2.RecvSequences.Sublist gs.RecvSequences)
    (has : gs2.AckSequences.Sublist gs.AckSequences)
    (hn : gs2.NextChannelSequence = gs.NextChannelSequence) :
    gs2.Validate c = none := by
  rw [validate_none_iff] at h ⊢
  obtain ⟨h0, hm, h1, h2, h3, h4, h5, h6⟩ := h
  have hle := maxParsedSequence_sublist_le c hch
  refine ⟨fun x hx => h0 x (hch.subset hx), ?_, fun x hx => h1 x (hack.subset hx),
    fun x hx => h2 x (hrc.subset hx), fun x hx => h3 x (hcm.subset hx),
    fun x hx => h4 x (hss.subset hx), fun x hx => h5 x (hrs.subset hx),
    fun x hx => h6 x (has.subset hx)⟩
  rw [hn]
  omega

/-- C20 at the channels `channel-3`, `channel-7`, `channel-5` with next sequence 8,
removing the middle channel. -/
theorem validate_preserved_by_removal_witness :
    (sampleState ["channel-3", "channel-7", "channel-5"] 8).Validate sampleCollab = none ∧
    (sampleState ["channel-3", "channel-5"] 8).Validate sampleCollab = none :=
  ⟨rfl, validate_preserved_by_removal sampleCollab
    (sampleState ["channel-3", "channel-7", "channel-5"] 8)
    (sampleState ["channel-3", "channel-5"] 8) rfl
    (by
      simp only [sampleState, NewGenesisState, List.map]
      exact List.Sublist.cons₂ _ (List.Sublist.cons _ (List.Sublist.refl _)))
    (List.Sublist.refl _) (List.Sublist.refl _) (List.Sublist.refl _) (List.Sublist.refl _)
    (List.Sublist.refl _) (List.Sublist.refl _) rfl⟩

/-- C15: when the first failing check lies in the receipts pass the error is of kind
`ErrInvalidAcknowledgement`; when it is a commitment failing `PacketState.Validate` the
error is of kind `ErrInvalidCommitment`; when it is a commitment that passes
`PacketState.Validate` but has zero-length data the error is of kind
`ErrInvalidAcknowledgement`. -/
theorem validate_receipt_commitment_kinds (c : Collab Cfg E) (gs : GenesisState Cfg P)
    (pre post : List PacketState) (r : PacketState)
    (hstage : channelStageOk c gs)
    (hacks : ∀ a ∈ gs.Acknowledgements, a.Validate c = none ∧ len a.Data ≠ 0) :
    (∀ err, gs.Receipts = pre ++ r :: post → (∀ y ∈ pre, y.Validate c = none) →
      r.Validate c = some err →
      gs.Validate c = some (.wrapf .ErrInvalidAcknowledgement "%v ack index %d: %s"
        [.packetState r, .num pre.length] (some err))) ∧
    (∀ err, (∀ y ∈ gs.Receipts, y.Validate c = none) → gs.Commitments = pre ++ r :: post →
      (∀ y ∈ pre, y.Validate c = none ∧ len y.Data ≠ 0) → r.Validate c = some err →
      gs.Validate c = some (.wrapf .ErrInvalidCommitment "%v index %d: %s"
        [.packetState r, .num pre.length] (some err))) ∧
    ((∀ y ∈ gs.Receipts, y.Validate c = none) → gs.Commitments = pre ++ r :: post →
      (∀ y ∈ pre, y.Validate c = none ∧ len y.Data ≠ 0) → r.Validate c = none →
      len r.Data = 0 →
      gs.Validate c = some (.wrapf .ErrInvalidAcknowledgement
        "%v ack index %d: data bytes cannot be empty"
        [.packetState r, .num pre.length] none)) := by
  have hA : ackLoop c gs.Acknowledgements 0 = none := (ackLoop_none_iff c _ 0).mpr hacks
  rw [validate_eq_recordLoops c gs hstage]
  unfold recordLoops
  rw [hA]
  refine ⟨?_, ?_, ?_⟩
  · intro err hsplit hpre hr
    rw [hsplit, receiptLoop_first_failure c pre post r err hpre hr 0, Nat.zero_add]
  · intro err hrc hsplit hpre hr
    rw [(receiptLoop_none_iff c _ 0).mpr hrc, hsplit,
      commitmentLoop_first_invalid c pre post r err hpre hr 0, Nat.zero_add]
  · intro hrc hsplit hpre hr hlen
    rw [(receiptLoop_none_iff c _ 0).mpr hrc, hsplit,
      commitmentLoop_first_empty c pre post r hpre hr hlen 0, Nat.zero_add]

/-- C15 at a valid receipt followed by a receipt with nil data. -/
theorem validate_receipt_commitment_kinds_witness :
    (sampleRecords [NewPacketState "transfer" "channel-0" 1 (some []),
        NewPacketState "transfer" "channel-0" 2 none] []).Validate sampleCollab
      = some (.wrapf .ErrInvalidAcknowledgement "%v ack index %d: %s"
          [.packetState (NewPacketState "transfer" "channel-0" 2 none), .num 1]
          (some (.new "data bytes cannot be nil"))) :=
  (validate_receipt_commitment_kinds sampleCollab
    (sampleRecords [NewPacketState "transfer" "channel-0" 1 (some []),
        NewPacketState "transfer" "channel-0" 2 none] [])
    [NewPacketState "transfer" "channel-0" 1 (some [])] []
    (NewPacketState "transfer" "channel-0" 2 none)
    ⟨(by intro ch hch; cases hch), Or.inl rfl⟩
    (by intro a ha; cases ha)).1 (.new "data bytes cannot be nil") rfl
    (by
      intro y hy
      simp only [List.mem_singleton] at hy
      subst hy
      rfl)
    rfl

/-- C16 (as stated, refuted): a failing receive-sequence record is reported by a plain
`fmt.Errorf` that carries no registered kind; the kind of a failing send-sequence record,
`ErrInvalidSequence`, is also the kind of the sequence-ordering error; and the kind of a
failing ack-sequence record, `ErrInvalidAcknowledgement`, is also the kind of a failing
acknowledgement and of a failing receipt. -/
theorem sequence_pass_kinds_not_own :
    ((sampleSeqs 1 0 1).Validate sampleCollab
        = some (.errorf "invalid receive sequence %v index %d: %w"
            [.packetSequence (NewPacketSequence "transfer" "channel-0" 0), .num 0]
            (.new "sequence cannot be 0")) ∧
      ((sampleSeqs 1 0 1).Validate sampleCollab).bind GoError.kind? = none) ∧
    (((sampleSeqs 0 1 1).Validate sampleCollab).bind GoError.kind?
        = some .ErrInvalidSequence ∧
      ((sampleState ["channel-5"] 5).Validate sampleCollab).bind GoError.kind?
        = some .ErrInvalidSequence) ∧
    (((sampleSeqs 1 1 0).Validate sampleCollab).bind GoError.kind?
        = some .ErrInvalidAcknowledgement ∧
      ((sampleRecords [NewPacketState "transfer" "channel-0" 2 none] []).Validate
        sampleCollab).bind GoError.kind? = some .ErrInvalidAcknowledgement ∧
      (sampleManyFailures.Validate sampleCollab).bind GoError.kind?
        = some .ErrInvalidAcknowledgement) :=
  ⟨⟨rfl, rfl⟩, ⟨rfl, rfl⟩, ⟨rfl, rfl, rfl⟩⟩

/-- C16 (amended): when the first failing check is a send-sequence record it is reported
under the kind `ErrInvalidSequence` with the format "invalid send sequence ...", when it
is a receive-sequence record it is reported with the format "invalid receive sequence
..." wrapping the record's error, and when it is an ack-sequence record it is reported
under the kind `ErrInvalidAcknowledgement` with the format "sequence ..."; the three
formats are pairwise distinct and the two kinds are distinct. -/
theorem validate_sequence_pass_labels (c : Collab Cfg E) (gs : GenesisState Cfg P)
    (pre post : List PacketSequence) (r : PacketSequence) (err : GoError Cfg E)
    (hstage : channelStageOk c gs)
    (hacks : ∀ a ∈ gs.Acknowledgements, a.Validate c = none ∧ len a.Data ≠ 0)
    (hrcp : ∀ a ∈ gs.Receipts, a.Validate c = none)
    (hcom : ∀ a ∈ gs.Commitments, a.Validate c = none ∧ len a.Data ≠ 0)
    (hpre : ∀ y ∈ pre, y.Validate c = none) (hr : r.Validate c = some err) :
    (gs.SendSequences = pre ++ r :: post →
      gs.Validate c = some (.wrapf .ErrInvalidSequence "invalid send sequence %v index %d: %s"
        [.packetSequence r, .num pre.length] (some err))) ∧
    ((∀ y ∈ gs.SendSequences, y.Validate c = none) → gs.RecvSequences = pre ++ r :: post →
      gs.Validate c = some (.errorf "invalid receive sequence %v index %d: %w"
        [.packetSequence r, .num pre.length] err)) ∧
    ((∀ y ∈ gs.SendSequences, y.Validate c = none) →
      (∀ y ∈ gs.RecvSequences, y.Validate c = none) → gs.AckSequences = pre ++ r :: post →
      gs.Validate c = some (.wrapf .ErrInvalidAcknowledgement "sequence %v index %d: %s"
        [.packetSequence r, .num pre.length] (some err))) ∧
    ("invalid send sequence %v index %d: %s" ≠ "invalid receive sequence %v index %d: %w" ∧
      "invalid send sequence %v index %d: %s" ≠ "sequence %v index %d: %s" ∧
      "invalid receive sequence %v index %d: %w" ≠ "sequence %v index %d: %s" ∧
      ErrKind.ErrInvalidSequence ≠ ErrKind.ErrInvalidAcknowledgement) := by
  have hA : ackLoop c gs.Acknowledgements 0 = none := (ackLoop_none_iff c _ 0).mpr hacks
  have hR : receiptLoop c gs.Receipts 0 = none := (receiptLoop_none_iff c _ 0).mpr hrcp
  have hC : commitmentLoop c gs.Commitments 0 = none :=
    (commitmentLoop_none_iff c _ 0).mpr hcom
  rw [validate_eq_recordLoops c gs hstage]
  unfold recordLoops
  rw [hA, hR, hC]
  refine ⟨?_, ?_, ?_, by decide, by decide, by decide, by decide⟩
  · intro hsplit
    rw [hsplit, sendLoop_first_failure c pre post r err hpre hr 0, Nat.zero_add]
  · intro hs hsplit
    rw [(sendLoop_none_iff c _ 0).mpr hs, hsplit,
      recvLoop_first_failure c pre post r err hpre hr 0, Nat.zero_add]
  · intro hs hv hsplit
    rw [(sendLoop_none_iff c _ 0).mpr hs, (recvLoop_none_iff c _ 0).mpr hv, hsplit,
      ackSeqLoop_first_failure c pre post r err hpre hr 0, Nat.zero_add]

/-- C16 (amended) at a state whose only failing record is its ack-sequence record. -/
theorem validate_sequence_pass_labels_witness :
    (sampleSeqs 1 1 0).Validate sampleCollab
      = some (.wrapf .ErrInvalidAcknowledgement "sequence %v index %d: %s"
          [.packetSequence (NewPacketSequence "transfer" "channel-0" 0), .num 0]
          (some (.new "sequence cannot be 0"))) :=
  (validate_sequence_pass_labels sampleCollab (sampleSeqs 1 1 0) [] []
    (NewPacketSequence "transfer" "channel-0" 0) (.new "sequence cannot be 0")
    ⟨(by intro ch hch; cases hch), Or.inl rfl⟩
    (by intro a ha; cases ha) (by intro a ha; cases ha) (by intro a ha; cases ha)
    (by intro a ha; cases ha) rfl).2.2.1
    (by
      intro y hy
      simp only [sampleSeqs, NewGenesisState, List.mem_singleton] at hy
      subst hy
      rfl)
    (by
      intro y hy
      simp only [sampleSeqs, NewGenesisState, List.mem_singleton] at hy
      subst hy
      rfl)
    rfl

/-- C12 (as stated, refuted): an identifier parse failure is returned as the parser
reports it, the same error whether the offending channel is at index 0 or at index 1 and
whatever the rest of the channel's value is, so it carries neither the record nor its
index; the sequence-ordering error is formatted with the two sequence numbers, not with a
record and its index; and the report of a receive-sequence record that fails for its zero
sequence carries no registered kind, whatever the errors of the other packages carry. -/
theorem validate_error_without_context :
    ((sampleState ["chan"] 0).Validate sampleCollab
        = some (.ext "invalid channel identifier") ∧
      (sampleState ["channel-0", "chan"] 0).Validate sampleCollab
        = some (.ext "invalid channel identifier") ∧
      (NewGenesisState [{ ChannelId := "chan", Config := false }] [] [] [] [] [] [] 0 () :
          GenesisState Bool Unit).Validate sampleCollab
        = some (.ext "invalid channel identifier")) ∧
    ((sampleState ["channel-5"] 5).Validate sampleCollab
        = some (.wrapf .ErrInvalidSequence
      "next channel sequence %d must be greater than maximum sequence used in channel identifier %d"
          [.num 5, .num 5] none)) ∧
    ((sampleSeqs 1 0 1).Validate sampleCollab
        = some (.errorf "invalid receive sequence %v index %d: %w"
            [.packetSequence (NewPacketSequence "transfer" "channel-0" 0), .num 0]
            (.new "sequence cannot be 0")) ∧
      ∀ extHasKind : String → Bool,
        (GoError.errorf "invalid receive sequence %v index %d: %w"
            [.packetSequence (NewPacketSequence "transfer" "channel-0" 0), .num 0]
            (.new "sequence cannot be 0") : GoError Bool String).hasKind extHasKind
          = false) :=
  ⟨⟨rfl, rfl, rfl⟩, rfl, rfl, fun _ => rfl⟩

/-- C12 (amended): an error is returned by `Validate` exactly when it is the report of
the check that fails first (`errorContext`).  From the channel structural validation and
from the six record passes it carries the full value of the offending record and that
record's index in its collection; an identifier parse failure is the parser's error as it
is, and the sequence-ordering error carries `NextChannelSequence` and the maximum parsed
sequence.  When the errors of the other packages carry a registered kind, every returned
error carries one, except the report of a receive-sequence record that fails for its zero
sequence. -/
theorem validate_error_context (c : Collab Cfg E) (gs : GenesisState Cfg P)
    (e : GoError Cfg E) :
    (gs.Validate c = some e ↔ errorContext c gs e) ∧
    (gs.Validate c = some e → ∀ extHasKind : E → Bool, (∀ x, extHasKind x = true) →
      (e.hasKind extHasKind = true ∨
        ∃ (pre : List PacketSequence) (r : PacketSequence) (post : List PacketSequence),
          gs.RecvSequences = pre ++ r :: post ∧ (∀ y ∈ pre, y.Validate c = none) ∧
          c.PortIdentifierValidator r.PortId = none ∧
          c.ChannelIdentifierValidator r.ChannelId = none ∧ r.Sequence = 0 ∧
          e = .errorf "invalid receive sequence %v index %d: %w"
            [.packetSequence r, .num pre.length] (.new "sequence cannot be 0"))) :=
  ⟨⟨errorContext_of_validate c gs e, validate_of_errorContext c gs e⟩,
   fun h extHasKind hk =>
     errorContext_hasKind c gs e (errorContext_of_validate c gs e h) extHasKind hk⟩

/-- C12 (amended) at a state whose first failing record is the acknowledgement at
index 1: the returned error is the report of that record, and an error that names the
valid acknowledgement at index 0 instead is not a report of the first failing check. -/
theorem validate_error_context_witness :
    errorContext sampleCollab sampleManyFailures
      (.wrapf .ErrInvalidAcknowledgement "%v ack index %d: %s"
          [.packetState (NewPacketState "transfer" "channel-0" 0 (some [1])), .num 1]
          (some (.new "sequence cannot be 0"))) ∧
    ¬ errorContext sampleCollab sampleManyFailures
      (.wrapf .ErrInvalidAcknowledgement "%v ack index %d: %s"
          [.packetState (NewPacketState "transfer" "channel-0" 1 (some [1])), .num 0]
          (some (.new "sequence cannot be 0"))) :=
  ⟨(validate_error_context sampleCollab sampleManyFailures _).1.mp rfl,
   fun hbad => by
     have h1 := (validate_error_context sampleCollab sampleManyFailures _).1.mpr hbad
     have h2 : sampleManyFailures.Validate sampleCollab
         = some (.wrapf .ErrInvalidAcknowledgement "%v ack index %d: %s"
            [.packetState (NewPacketState "transfer" "channel-0" 0 (some [1])), .num 1]
            (some (.new "sequence cannot be 0"))) := rfl
     rw [h2] at h1
     simp only [Option.some.injEq, GoError.wrapf.injEq, List.cons.injEq, Arg.num.injEq,
       Arg.packetState.injEq] at h1
     have h3 := h1.2.2.1.2.1
     exact absurd h3 (by decide)⟩

end Claims

end Genesis
